import Mathlib

/-!
# Verification of the OpenAudit freight-audit core

This file gives a shallow embedding, in Lean 4, of the detection engine of
the OpenAudit repository (audit_engine.py, audits/misc_nonship.py and the
filing-window classifier of app.py), together with theorems settling the
frozen claims about it.

Modelling conventions:
* pandas cells are modelled by `Option Value`: `none` is NaN, `some v` a
  present value which is either a string or a number.  A row is an
  association list from column name to cell; a column absent from the list
  is a column absent from the frame.
* Python floats are modelled by `Rat` (exact arithmetic).  The numeric
  literals appearing in the claims are exactly representable, so no
  floating-point rounding is involved at any claim-relevant input.
* pandas timestamps are modelled at day granularity by `Int` (days since
  1970-01-01); `%Y-%m-%d` rendering and ISO parsing use the standard civil
  calendar conversion.
* Python regular expressions used by the canonicalization table are
  embedded by an explicit regex AST (`RE`) with a backtracking matcher
  implementing `re.search` semantics for the constructs those patterns use.
-/

/- The Batteries `Rat` arithmetic operations are `@[irreducible]`, which
blocks `decide` from evaluating concrete rational arithmetic; the claims
are settled on concrete monetary inputs, so make them unfoldable here. -/
attribute [local semireducible] Rat.add Rat.sub Rat.mul Rat.inv

/-! ## Python-style string helpers -/

/-- The characters Python `\s` (and `str.strip`) treats as whitespace. -/
def pyWsChars : List Char := [' ', Char.ofNat 9, Char.ofNat 10, Char.ofNat 13, Char.ofNat 11, Char.ofNat 12]

def isPyWs (c : Char) : Bool := pyWsChars.contains c

/-- The apostrophe character (used in source literals such as the
business-indicator list). -/
def aposChar : Char := Char.ofNat 39

def apos : String := String.singleton aposChar

/-- Python `str.upper` restricted to ASCII, which is all the engine uses. -/
def pyUpper (s : String) : String := String.mk (s.data.map Char.toUpper)

/-- Python `str.lower` restricted to ASCII. -/
def pyLower (s : String) : String := String.mk (s.data.map Char.toLower)

/-- `str.replace` on character lists (non-overlapping, left to right); the
fuel argument makes the recursion structural and is always instantiated
with the length of the subject, which suffices because each step consumes
at least one character. -/
def listReplaceAux (pat rep : List Char) : ℕ → List Char → List Char
  | 0, l => l
  | _ + 1, [] => []
  | fuel + 1, c :: cs =>
      if List.isPrefixOf pat (c :: cs) then
        rep ++ listReplaceAux pat rep fuel ((c :: cs).drop pat.length)
      else c :: listReplaceAux pat rep fuel cs

/-- Python `str.replace(pat, rep)` (for the non-empty patterns the engine
uses). -/
def strReplace (s pat rep : String) : String :=
  if pat = "" then s
  else String.mk (listReplaceAux pat.data rep.data s.data.length s.data)

/-- `str.split`-style splitting at separator characters. -/
def listSplit (p : Char → Bool) (l : List Char) : List (List Char) :=
  l.foldr (fun c acc =>
    match acc with
    | cur :: rest => if p c then [] :: cur :: rest else (c :: cur) :: rest
    | [] => [[]]) [[]]

def strSplit (p : Char → Bool) (s : String) : List String :=
  (listSplit p s.data).map String.mk

/-- Python `str.strip()`. -/
def pyStrip (s : String) : String :=
  String.mk (((s.data.dropWhile isPyWs).reverse.dropWhile isPyWs).reverse)

/-- `needle in hay` on lists of characters. -/
def listContains : List Char → List Char → Bool
  | _, [] => true
  | [], _ :: _ => false
  | h :: hs, n :: ns =>
      (List.isPrefixOf (n :: ns) (h :: hs)) || listContains hs (n :: ns)

/-- Python `needle in hay` for strings (substring containment). -/
def strContains (hay needle : String) : Bool := listContains hay.data needle.data

/-- Python `str.startswith`. -/
def strStartsWith (s pre : String) : Bool := List.isPrefixOf pre.data s.data

/-! ## Decimal parsing and formatting over `Rat` -/

def isDigitChar (c : Char) : Bool := '0' ≤ c && c ≤ '9'

def digitVal (c : Char) : ℕ := c.toNat - '0'.toNat

def digitsToNat (l : List Char) : ℕ := l.foldl (fun a c => a * 10 + digitVal c) 0

/-- Parse `\d+` greedily; returns the digits read and the rest. -/
def takeDigits (l : List Char) : List Char × List Char :=
  (l.takeWhile isDigitChar, l.dropWhile isDigitChar)

/-- Parse the regex token `-?\d+(\.\d+)?` greedily at the head of `l`;
on success returns the value and the unconsumed suffix.  This is the numeric
token grammar of `parse_merged` in check_disputable_surcharges. -/
def parseAmtToken (l : List Char) : Option (ℚ × List Char) :=
  let (neg, l1) := match l with
    | '-' :: t => (true, t)
    | _ => (false, l)
  let (ds, l2) := takeDigits l1
  if ds.isEmpty then none
  else
    let intPart : ℚ := (digitsToNat ds : ℚ)
    let (v, rest) := match l2 with
      | '.' :: t =>
          let (fs, l3) := takeDigits t
          if fs.isEmpty then (intPart, l2)
          else (intPart + (digitsToNat fs : ℚ) / ((10 : ℚ) ^ fs.length), l3)
      | _ => (intPart, l2)
    some (if neg then -v else v, rest)

/-- Python `float(s)` restricted to the decimal forms the audit data uses:
optional sign, digits with an optional fractional part (either side of the
point may be empty but not both), surrounded by optional whitespace.
Exponents / inf / nan are not modelled; on those `none` is returned, which
the callers treat exactly as Python treats a raised `ValueError`. -/
def pyFloat (s : String) : Option ℚ :=
  let l := (s.data.dropWhile isPyWs).reverse.dropWhile isPyWs |>.reverse
  let (neg, l1) := match l with
    | '-' :: t => (true, t)
    | '+' :: t => (false, t)
    | _ => (false, l)
  let (ds, l2) := takeDigits l1
  match l2 with
  | [] =>
      if ds.isEmpty then none
      else some (if neg then -(digitsToNat ds : ℚ) else (digitsToNat ds : ℚ))
  | '.' :: t =>
      let (fs, l3) := takeDigits t
      if l3.isEmpty then
        if ds.isEmpty && fs.isEmpty then none
        else
          let v : ℚ := (digitsToNat ds : ℚ) + (digitsToNat fs : ℚ) / ((10 : ℚ) ^ fs.length)
          some (if neg then -v else v)
      else none
  | _ => none

/-- Floor of a rational by flooring integer division of numerator by
(positive) denominator — kernel-computable. -/
def ratFloor (q : ℚ) : ℤ := q.num.fdiv (q.den : ℤ)

/-- Ceiling of a rational. -/
def ratCeil (q : ℚ) : ℤ := -ratFloor (-q)

/-- Round half to even to an integer, the rounding of Python `round`. -/
def pyRoundInt (q : ℚ) : ℤ :=
  let f : ℤ := ratFloor q
  let r : ℚ := q - (f : ℚ)
  if r < 1/2 then f
  else if 1/2 < r then f + 1
  else if f % 2 = 0 then f else f + 1

/-- Python `round(x, 2)`. -/
def pyRound2 (q : ℚ) : ℚ := (pyRoundInt (q * 100) : ℚ) / 100

/-- Render a natural number as decimal digits. -/
def natDigits (n : ℕ) : String := toString n

/-- Left-pad a numeral string with zeros to width `w`. -/
def padZero (w : ℕ) (s : String) : String :=
  if s.length < w then String.mk (List.replicate (w - s.length) '0') ++ s else s

/-- Python fixed-point formatting `format(q, '.kf')` with `k` fractional
digits (decimal rounding half to even). -/
def formatFixed (k : ℕ) (q : ℚ) : String :=
  let scaled : ℤ := pyRoundInt (q * ((10 : ℚ) ^ k))
  let sign : String := if scaled < 0 then "-" else ""
  let m : ℕ := scaled.natAbs
  let ip : ℕ := m / (10 ^ k)
  let fp : ℕ := m % (10 ^ k)
  if k = 0 then sign ++ natDigits ip
  else sign ++ natDigits ip ++ "." ++ padZero k (natDigits fp)

/-! ## Civil calendar arithmetic

`daysFromCivil`/`civilFromDays` are the standard proleptic-Gregorian
conversions (days measured from 1970-01-01); they model the day component
of pandas timestamps. -/

def daysFromCivil (y m d : ℤ) : ℤ :=
  let y1 : ℤ := y - (if m ≤ 2 then 1 else 0)
  let era : ℤ := (if 0 ≤ y1 then y1 else y1 - 399) / 400
  let yoe : ℤ := y1 - era * 400
  let mp : ℤ := m + (if 2 < m then -3 else 9)
  let doy : ℤ := (153 * mp + 2) / 5 + d - 1
  let doe : ℤ := yoe * 365 + yoe / 4 - yoe / 100 + doy
  era * 146097 + doe - 719468

def civilFromDays (z0 : ℤ) : ℤ × ℤ × ℤ :=
  let z : ℤ := z0 + 719468
  let era : ℤ := (if 0 ≤ z then z else z - 146096) / 146097
  let doe : ℤ := z - era * 146097
  let yoe : ℤ := (doe - doe / 1460 + doe / 36524 - doe / 146096) / 365
  let y : ℤ := yoe + era * 400
  let doy : ℤ := doe - (365 * yoe + yoe / 4 - yoe / 100)
  let mp : ℤ := (5 * doy + 2) / 153
  let d : ℤ := doy - (153 * mp + 2) / 5 + 1
  let m : ℤ := mp + (if mp < 10 then 3 else -9)
  (y + (if m ≤ 2 then 1 else 0), m, d)

/-- Python `datetime.weekday()`: Monday = 0 … Sunday = 6.
Day 0 (1970-01-01) was a Thursday. -/
def weekday (z : ℤ) : ℤ := (z + 3) % 7

/-- `strftime('%Y-%m-%d')`. -/
def renderDate (z : ℤ) : String :=
  let c := civilFromDays z
  padZero 4 (toString c.1) ++ "-" ++ padZero 2 (toString c.2.1) ++ "-" ++ padZero 2 (toString c.2.2)

/-- The month of a timestamp (`ts.month`). -/
def monthOf (z : ℤ) : ℤ := (civilFromDays z).2.1

def daysInMonth (y m : ℤ) : ℤ :=
  if m = 2 then (if y % 4 = 0 ∧ (y % 100 ≠ 0 ∨ y % 400 = 0) then 29 else 28)
  else if m = 4 ∨ m = 6 ∨ m = 9 ∨ m = 11 then 30
  else 31

def validYmd (y m d : ℤ) : Bool :=
  decide (1 ≤ m ∧ m ≤ 12 ∧ 1 ≤ d ∧ d ≤ daysInMonth y m)

/-- `pd.to_datetime(s, errors='coerce')` restricted to the two date shapes
the engine produces or matches: ISO `YYYY-MM-DD` and US `M/D/YYYY`.
Invalid dates coerce to NaT (`none`).  Time-of-day suffixes are not
produced by any detector and are ignored at day granularity. -/
def parseDate (s : String) : Option ℤ :=
  let t := pyStrip s
  match strSplit (· = '-') t with
  | [ys, ms, ds] =>
      let (yd, _) := takeDigits ys.data
      let (md, _) := takeDigits ms.data
      let (dd, _) := takeDigits ds.data
      if yd.length = ys.length ∧ md.length = ms.length ∧ dd.length = ds.length ∧
          ys.length = 4 ∧ 0 < ms.length ∧ 0 < ds.length then
        let y : ℤ := (digitsToNat yd : ℤ)
        let m : ℤ := (digitsToNat md : ℤ)
        let d : ℤ := (digitsToNat dd : ℤ)
        if validYmd y m d then some (daysFromCivil y m d) else none
      else none
  | _ =>
      match strSplit (· = '/') t with
      | [ms, ds, ys] =>
          let (md, _) := takeDigits ms.data
          let (dd, _) := takeDigits ds.data
          let (yd, _) := takeDigits ys.data
          if md.length = ms.length ∧ dd.length = ds.length ∧ yd.length = ys.length ∧
              ys.length = 4 ∧ 0 < ms.length ∧ 0 < ds.length then
            let y : ℤ := (digitsToNat yd : ℤ)
            let m : ℤ := (digitsToNat md : ℤ)
            let d : ℤ := (digitsToNat dd : ℤ)
            if validYmd y m d then some (daysFromCivil y m d) else none
          else none
      | _ => none

/-- The next calendar day with a weekday strictly after `z`
(one iteration of the `while` loop body of `_add_business_days`). -/
def nextBusinessDay (z : ℤ) : ℤ :=
  if weekday (z + 1) < 5 then z + 1
  else if weekday (z + 2) < 5 then z + 2
  else z + 3

/-- `FreightAuditEngine._add_business_days`: advance `n` business days,
Saturdays and Sundays skipped. -/
def addBusinessDays (z : ℤ) : ℕ → ℤ
  | 0 => z
  | n + 1 => addBusinessDays (nextBusinessDay z) n

/-! ## Cells, rows and field resolution

A cell is `Option Value`: `none` models NaN.  A row is an association list
column-name ↦ cell; a column that is absent from the list is a column the
frame does not have.  `rowGetCell` distinguishes the three states. -/

inductive Value where
  | vStr (s : String)
  | vNum (q : ℚ)
deriving DecidableEq, Repr

abbrev Row := List (String × Option Value)

/-- `col in row.index` together with the cell: `none` = column absent,
`some none` = NaN, `some (some v)` = value. -/
def rowGetCell (r : Row) (c : String) : Option (Option Value) :=
  (r.find? (fun p => p.1 = c)).map Prod.snd

/-- `col in df.columns` (union of row keys, as for a frame built from
records). -/
def dfHasCol (df : List Row) (c : String) : Bool :=
  df.any (fun r => r.any (fun p => p.1 = c))

/-- Python `str(v)` for a cell value.  Numeric cells only ever flow back
through `float(str(v))`, so the rendering below (exact for integers) is
observation-equivalent for the data the engine processes. -/
def valueStr (v : Value) : String :=
  match v with
  | .vStr s => s
  | .vNum q => if q.den = 1 then toString q.num ++ ".0" else toString q

/-- `float(str(v).strip().replace('$','').replace(',','').replace('(','-').replace(')',''))`,
the numeric coercion of `_get_float_value`. -/
def cellFloat (v : Value) : Option ℚ :=
  match v with
  | .vNum q => some q
  | .vStr s =>
      let t := strReplace (strReplace (strReplace (strReplace (pyStrip s) "$" "") "," "") "(" "-") ")" ""
      if t = "" then none else pyFloat t

/-- `FreightAuditEngine._get_float_value`: first candidate column that is
present, non-NaN and parses yields the value; otherwise 0.0.  (The Python
`try` swallows the parse failure and moves to the next candidate; an empty
cleaned string also moves on.) -/
def getFloatValue (r : Row) (cands : List String) : ℚ :=
  match cands with
  | [] => 0
  | c :: rest =>
      match rowGetCell r c with
      | some (some v) =>
          match cellFloat v with
          | some q => q
          | none => getFloatValue r rest
      | _ => getFloatValue r rest

/-- `FreightAuditEngine._get_first`: first candidate column present,
non-NaN and with non-blank string form. -/
def getFirst (r : Row) (cands : List String) : Option Value :=
  match cands with
  | [] => none
  | c :: rest =>
      match rowGetCell r c with
      | some (some v) => if pyStrip (valueStr v) ≠ "" then some v else getFirst r rest
      | _ => getFirst r rest

/-- `FreightAuditEngine._get_text`. -/
def getText (r : Row) (cands : List String) : String :=
  match getFirst r cands with
  | some v => valueStr v
  | none => ""

/-- `FreightAuditEngine._get_date`: resolve then `pd.to_datetime(·, errors='coerce')`. -/
def getDate (r : Row) (cands : List String) : Option ℤ :=
  match getFirst r cands with
  | some (.vStr s) => parseDate s
  | _ => none

/-- `FreightAuditEngine._normalize_tracking`:
`str(x).strip().replace(' ','').replace('-','').upper()`, with NaN ↦ "". -/
def normalizeTracking (cell : Option (Option Value)) : String :=
  match cell with
  | some (some v) => pyUpper (strReplace (strReplace (pyStrip (valueStr v)) " " "") "-" "")
  | _ => ""

/-- `FreightAuditEngine._get_dimension` for one dimension kind: first
candidate column whose cell is present, non-NaN, non-blank and coerces to
a positive number. -/
def getDimensionFrom (r : Row) (cands : List String) : ℚ :=
  match cands with
  | [] => 0
  | c :: rest =>
      match rowGetCell r c with
      | some (some (.vNum q)) =>
          -- str(float) is never blank and pd.to_numeric(str(float)) is the
          -- float back, so the source's strip/parse steps reduce to the
          -- positivity test on numeric cells.
          if 0 < q then q else getDimensionFrom r rest
      | some (some (.vStr s)) =>
          if pyStrip s = "" then getDimensionFrom r rest
          else
            match pyFloat (pyStrip s) with
            | some q => if 0 < q then q else getDimensionFrom r rest
            | none => getDimensionFrom r rest
      | _ => getDimensionFrom r rest

def lengthCands : List String := ["Dimmed Length", "Length", "Length (in)", "Pkg Length", "Package Length", "Len"]
def widthCands : List String := ["Dimmed Width", "Width", "Width (in)", "Pkg Width", "Package Width", "Wid"]
def heightCands : List String := ["Dimmed Height", "Height", "Height (in)", "Pkg Height", "Package Height", "Hgt"]

/-- `row.get(c, default)` on a pandas row: absent column gives the default,
otherwise the cell is returned as is (possibly NaN). -/
def rowGetD (r : Row) (c : String) (dflt : Option Value) : Option Value :=
  match rowGetCell r c with
  | some cell => cell
  | none => dflt

/-! ## Regex AST and matcher

Just enough of Python `re.search` for the canonicalization patterns of
`check_disputable_surcharges`: literals, `\s`/`\s*`, `.`/`.*`, `[-\s]*`,
alternation, optional groups and the word boundary `\b`. -/

def isWordChar (c : Char) : Bool := c.isAlphanum || c = '_'

inductive RE where
  | eps : RE
  | ch : Char → RE
  | ws : RE
  | dot : RE
  | seq : RE → RE → RE
  | alt : RE → RE → RE
  | opt : RE → RE
  | starWs : RE
  | starDot : RE
  | starDashWs : RE
  | wb : RE

/-- All ways a starred single-character class can consume a prefix. -/
def starConsume (p : Char → Bool) : Option Char → List Char → List (Option Char × List Char)
  | pr, [] => [(pr, [])]
  | pr, x :: xs => (pr, x :: xs) :: (if p x then starConsume p (some x) xs else [])

def atWordBoundary (pr : Option Char) (s : List Char) : Bool :=
  let l := match pr with | some c => isWordChar c | none => false
  let rgt := match s with | x :: _ => isWordChar x | [] => false
  l ≠ rgt

/-- All states `(previous char, rest)` reachable by matching `r` at the
current position. -/
def REmatch : RE → Option Char → List Char → List (Option Char × List Char)
  | .eps, pr, s => [(pr, s)]
  | .ch _, _, [] => []
  | .ch c, _, x :: xs => if x = c then [(some x, xs)] else []
  | .ws, _, [] => []
  | .ws, _, x :: xs => if isPyWs x then [(some x, xs)] else []
  | .dot, _, [] => []
  | .dot, _, x :: xs => if x = Char.ofNat 10 then [] else [(some x, xs)]
  | .seq a b, pr, s => (REmatch a pr s).flatMap (fun st => REmatch b st.1 st.2)
  | .alt a b, pr, s => REmatch a pr s ++ REmatch b pr s
  | .opt a, pr, s => (pr, s) :: REmatch a pr s
  | .starWs, pr, s => starConsume isPyWs pr s
  | .starDot, pr, s => starConsume (fun c => c ≠ Char.ofNat 10) pr s
  | .starDashWs, pr, s => starConsume (fun c => c = '-' || isPyWs c) pr s
  | .wb, pr, s => if atWordBoundary pr s then [(pr, s)] else []

def REsearchAux (r : RE) : Option Char → List Char → Bool
  | pr, [] => !(REmatch r pr []).isEmpty
  | pr, x :: xs => !(REmatch r pr (x :: xs)).isEmpty || REsearchAux r (some x) xs

/-- `re.search(r, s) is not None`. -/
def REsearch (r : RE) (s : String) : Bool := REsearchAux r none s.data

/-- A literal string as a regex. -/
def relit (s : String) : RE := s.data.foldr (fun c acc => RE.seq (RE.ch c) acc) RE.eps

def rcat (l : List RE) : RE := l.foldr RE.seq RE.eps

def ralt3 (a b c : RE) : RE := RE.alt a (RE.alt b c)

/-! ### The canonicalization table

`CANON` of `check_disputable_surcharges`, in source order (the order is the
tie-break policy).  Each entry is the embedded form of the Python pattern
quoted in its comment. -/

-- ADDRESS\s*CORR
def patAddressCorr : RE := rcat [relit "ADDRESS", .starWs, relit "CORR"]

-- DAS.*RES(IDENTIAL)?|DELIVERY\s*AREA.*RES(IDENTIAL)?
def patDasRes : RE :=
  RE.alt (rcat [relit "DAS", .starDot, relit "RES", .opt (relit "IDENTIAL")])
    (rcat [relit "DELIVERY", .starWs, relit "AREA", .starDot, relit "RES", .opt (relit "IDENTIAL")])

-- \bRES(|IDENTIAL)\b|RES\s*SURCHARGE
def patRes : RE :=
  RE.alt (rcat [.wb, relit "RES", RE.alt .eps (relit "IDENTIAL"), .wb])
    (rcat [relit "RES", .starWs, relit "SURCHARGE"])

-- SAT(URDAY)?\s*DEL(IVERY)?
def patSatDel : RE := rcat [relit "SAT", .opt (relit "URDAY"), .starWs, relit "DEL", .opt (relit "IVERY")]

-- SAT(URDAY)?\s*PICKUP
def patSatPickup : RE := rcat [relit "SAT", .opt (relit "URDAY"), .starWs, relit "PICKUP"]

-- SUNDAY\s*DEL(IVERY)?|WEEKEND
def patSunday : RE :=
  RE.alt (rcat [relit "SUNDAY", .starWs, relit "DEL", .opt (relit "IVERY")]) (relit "WEEKEND")

-- RETURN\s*(FEE|TO SHIPPER|RTS)
def patReturnFee : RE :=
  rcat [relit "RETURN", .starWs, ralt3 (relit "FEE") (relit "TO SHIPPER") (relit "RTS")]

-- REDIRECT|DELIVERY\s*CHANGE|ADDRESS\s*CHANGE
def patRedirect : RE :=
  ralt3 (relit "REDIRECT") (rcat [relit "DELIVERY", .starWs, relit "CHANGE"])
    (rcat [relit "ADDRESS", .starWs, relit "CHANGE"])

-- HOLD\s*(AT)?\s*LOCATION|WILL\s*CALL
def patHold : RE :=
  RE.alt (rcat [relit "HOLD", .starWs, .opt (relit "AT"), .starWs, relit "LOCATION"])
    (rcat [relit "WILL", .starWs, relit "CALL"])

-- DUPLICATE\s*INVOICE|INVALID\s*ACCOUNT|INCORRECT\s*BILL(ING)?|REBILL|MANUAL\s*PROCESS
def patBillingError : RE :=
  RE.alt (rcat [relit "DUPLICATE", .starWs, relit "INVOICE"])
    (RE.alt (rcat [relit "INVALID", .starWs, relit "ACCOUNT"])
      (ralt3 (rcat [relit "INCORRECT", .starWs, relit "BILL", .opt (relit "ING")])
        (relit "REBILL") (rcat [relit "MANUAL", .starWs, relit "PROCESS"])))

-- AD(D'?|DL)?(ITIONAL)?\s*HANDLING — the shared stem of the handling patterns
def patAddlHandlingStem : RE :=
  rcat [relit "AD", .opt (RE.alt (RE.seq (RE.ch 'D') (.opt (RE.ch aposChar))) (relit "DL")),
    .opt (relit "ITIONAL"), .starWs, relit "HANDLING"]

-- AD(D'?|DL)?(ITIONAL)?\s*HANDLING.*(PACKAGE|PACKAGING)
def patAhsPackaging : RE :=
  rcat [patAddlHandlingStem, .starDot, RE.alt (relit "PACKAGE") (relit "PACKAGING")]

-- DEMAND.*ADDITIONAL.*HANDLING
def patDemandAddl : RE :=
  rcat [relit "DEMAND", .starDot, relit "ADDITIONAL", .starDot, relit "HANDLING"]

-- AD(D'?|DL)?(ITIONAL)?\s*HANDLING|AHS|NON[-\s]*MACHINABLE
def patAddlHandling : RE :=
  ralt3 patAddlHandlingStem (relit "AHS") (rcat [relit "NON", .starDashWs, relit "MACHINABLE"])

-- DEMAND.*OVERSIZE
def patDemandOversize : RE := rcat [relit "DEMAND", .starDot, relit "OVERSIZE"]

-- OVERSIZE|OVER\s*SIZE|LARGE\s*PACKAGE
def patOversize : RE :=
  ralt3 (relit "OVERSIZE") (rcat [relit "OVER", .starWs, relit "SIZE"])
    (rcat [relit "LARGE", .starWs, relit "PACKAGE"])

-- UNAUTH(ORIZED)?\s*PACKAGE
def patUnauthorized : RE := rcat [relit "UNAUTH", .opt (relit "ORIZED"), .starWs, relit "PACKAGE"]

-- PEAK\s*ADDITIONAL\s*HANDLING
def patPeakAddl : RE := rcat [relit "PEAK", .starWs, relit "ADDITIONAL", .starWs, relit "HANDLING"]

-- PEAK\s*OVERSIZE
def patPeakOversize : RE := rcat [relit "PEAK", .starWs, relit "OVERSIZE"]

-- PEAK\s*RESIDENTIAL
def patPeakResidential : RE := rcat [relit "PEAK", .starWs, relit "RESIDENTIAL"]

-- \bPEAK\b
def patPeak : RE := rcat [.wb, relit "PEAK", .wb]

-- MONEY[-\s]*BACK|LATE\s*DELIVERY|SERVICE\s*FAILURE|TRANSIT\s*TIME|DELIVERY\s*EXCEPTION
def patServiceFailure : RE :=
  RE.alt (rcat [relit "MONEY", .starDashWs, relit "BACK"])
    (RE.alt (rcat [relit "LATE", .starWs, relit "DELIVERY"])
      (ralt3 (rcat [relit "SERVICE", .starWs, relit "FAILURE"])
        (rcat [relit "TRANSIT", .starWs, relit "TIME"])
        (rcat [relit "DELIVERY", .starWs, relit "EXCEPTION"])))

-- WEIGHT\s*CORRECTION
def patWeightCorrection : RE := rcat [relit "WEIGHT", .starWs, relit "CORRECTION"]

-- DIM(ENSIONAL)?\s*WEIGHT|CUBIC\s*VOLUME
def patDimWeight : RE :=
  RE.alt (rcat [relit "DIM", .opt (relit "ENSIONAL"), .starWs, relit "WEIGHT"])
    (rcat [relit "CUBIC", .starWs, relit "VOLUME"])

-- OVERWEIGHT
def patOverweight : RE := relit "OVERWEIGHT"

-- BROKERAGE|DUTY\s*AND\s*TAX|ENTRY\s*PREPARATION|CLEARANCE\s*ENTRY|IMPORT\s*DATA\s*CORRECTION
def patCustoms : RE :=
  RE.alt (relit "BROKERAGE")
    (RE.alt (rcat [relit "DUTY", .starWs, relit "AND", .starWs, relit "TAX"])
      (ralt3 (rcat [relit "ENTRY", .starWs, relit "PREPARATION"])
        (rcat [relit "CLEARANCE", .starWs, relit "ENTRY"])
        (rcat [relit "IMPORT", .starWs, relit "DATA", .starWs, relit "CORRECTION"])))

-- INVALID\s*PICKUP|ATTEMPTED\s*DELIVERY|UNDELIVERABLE|DELIVERY\s*ATTEMPT
def patFailedPickup : RE :=
  RE.alt (rcat [relit "INVALID", .starWs, relit "PICKUP"])
    (ralt3 (rcat [relit "ATTEMPTED", .starWs, relit "DELIVERY"])
      (relit "UNDELIVERABLE") (rcat [relit "DELIVERY", .starWs, relit "ATTEMPT"]))

-- FUEL|FUEL\s*SURCHARGE|FSC
def patFuel : RE := ralt3 (relit "FUEL") (rcat [relit "FUEL", .starWs, relit "SURCHARGE"]) (relit "FSC")

-- DECLARED\s*VALUE|DV\s*CHARGE|INSURANCE
def patDeclaredValue : RE :=
  ralt3 (rcat [relit "DECLARED", .starWs, relit "VALUE"])
    (rcat [relit "DV", .starWs, relit "CHARGE"]) (relit "INSURANCE")

-- MISSING\s*DOC
def patMissingDoc : RE := rcat [relit "MISSING", .starWs, relit "DOC"]

/-- The `CANON` list of `check_disputable_surcharges`, in source order. -/
def CANON : List (RE × String) :=
  [ (patAddressCorr, "ADDRESS CORRECTION"),
    (patDasRes, "DAS RESIDENTIAL"),
    (patRes, "RESIDENTIAL SURCHARGE"),
    (patSatDel, "SATURDAY DELIVERY"),
    (patSatPickup, "SATURDAY PICKUP"),
    (patSunday, "SUNDAY/WEEKEND CHARGE"),
    (patReturnFee, "RETURN FEE"),
    (patRedirect, "REDIRECT DELIVERY FEE"),
    (patHold, "HOLD AT LOCATION FEE"),
    (patBillingError, "BILLING ERROR FEE"),
    (patAhsPackaging, "AHS PACKAGING"),
    (patDemandAddl, "DEMAND ADDITIONAL HANDLING"),
    (patAddlHandling, "ADDITIONAL HANDLING SURCHARGE"),
    (patDemandOversize, "DEMAND OVERSIZE"),
    (patOversize, "OVERSIZE CHARGE"),
    (patUnauthorized, "UNAUTHORIZED PACKAGE CHARGE"),
    (patPeakAddl, "PEAK ADDITIONAL HANDLING"),
    (patPeakOversize, "PEAK OVERSIZE"),
    (patPeakResidential, "PEAK RESIDENTIAL"),
    (patPeak, "PEAK SURCHARGE"),
    (patServiceFailure, "SERVICE FAILURE ADJUSTMENT"),
    (patWeightCorrection, "WEIGHT CORRECTION"),
    (patDimWeight, "DIM WEIGHT ADJUSTMENT"),
    (patOverweight, "OVERWEIGHT CHARGE"),
    (patCustoms, "CUSTOMS/BROKERAGE FEE"),
    (patFailedPickup, "FAILED PICKUP/DELIVERY FEE"),
    (patFuel, "FUEL SURCHARGE"),
    (patDeclaredValue, "DECLARED VALUE CHARGE"),
    (patMissingDoc, "MISSING DOCUMENTATION FEE") ]

/-- `canonize` of `check_disputable_surcharges`: first matching pattern
wins; the upper-cased stripped label is the fallback. -/
def canonize (label : String) : String :=
  let u := pyStrip (pyUpper label)
  canonizeGo u CANON
where
  canonizeGo (u : String) : List (RE × String) → String
    | [] => u
    | (pat, name) :: rest => if REsearch pat u then name else canonizeGo u rest

/-! ## Residential classifier (`detect_residential_surcharges`) -/

/-- The default residential-surcharge phrase patterns of
`FreightAuditEngine.__init__`. -/
def residentialPatterns : List String :=
  [ "residential surcharge", "residential delivery",
    "delivery area surcharge - residential", "das - residential",
    "das residential", "home delivery", "address correction - residential",
    "residential area surcharge", "residential area" ]

/-- `business_indicators` of `FreightAuditEngine.__init__` (long indicators,
checked by plain substring containment). -/
def businessIndicators : List String :=
  [ "LLC", "INC", "CORP", "COMPANY", "BUSINESS", "OFFICE",
    "WAREHOUSE", "STORE", "SHOP", "CENTER", "DISTRIBUTION",
    "SEPHORA", "ULTA", "NORDSTROM", "BLOOMINGDALE", "MACY",
    "KOHLS", "TARGET", "MAC COSMETICS",
    "DIOR", "TOWER 28", "L" ++ apos ++ "OREAL", "LOREAL",
    "MALL OF AMERICA", "VALLEY FAIR", "HOUSTON GALLERIA",
    "SANTA ANITA", "NORTH PARK", "CHESTNUT HILL", "CERRITOS",
    "CORAL GABLES", "DADELAND", "AVENTURA",
    "MILLSTREAM", "BELLEVUE", "BERKELEY",
    "WES HARNESS",
    "HUNTER PHILLIPS", "WILLIAM WESPY", "FAB SHIPPING", "JESSE MENG",
    "AMYCE STOD DARD", "MARK LOVELESS", "MKT ALLIANCE",
    "MARKETING ALLIANCE GROUP", "MARKETING ALLIANCE",
    "CREATIVE PLASTICS", "CREATIVE PLASTIC", "H & B",
    "251 GILLUM", "GILLUM DR", "GILLUM DRIVE", "GILLU I DRIVE",
    "1409 CORONET", "CORONET DR", "CORONET DRIVE" ]

/-- `business_abbrev`: short abbreviations matched with `\b` word
boundaries only. -/
def businessAbbrev : List String := ["NRD", "BLM"]

/-- `FreightAuditEngine._has_business_indicators`. -/
def hasBusinessIndicators (destInfo : String) : Bool :=
  businessIndicators.any (fun ind => strContains destInfo ind) ||
    businessAbbrev.any (fun ab => REsearch (rcat [.wb, relit ab, .wb]) destInfo)

def destinationInfoFields : List String :=
  [ "Recipient Company Name", "Recipient Name", "Consignee",
    "Recipient Address", "Destination Address", "Recipient Original Address",
    "Recipient City", "Recipient State/Province", "Recipient Postal Code" ]

def shipperInfoFields : List String :=
  [ "Shipper Company Name", "Shipper Name", "Shipper",
    "Shipper Address", "Origin Address", "Ship From Address",
    "Shipper City", "Shipper State", "Shipper Postal Code" ]

/-- `_get_full_destination_info` / `_get_full_shipper_info`: join the
stripped, present, non-NaN, non-blank field values with single spaces. -/
def joinInfoFields (fields : List String) (r : Row) : String :=
  String.intercalate " "
    ((fields.filterMap (fun f =>
      match rowGetCell r f with
      | some (some v) =>
          let val := pyStrip (valueStr v)
          if val ≠ "" then some val else none
      | _ => none)))

def fullDestinationInfo (r : Row) : String := joinInfoFields destinationInfoFields r

def fullShipperInfo (r : Row) : String := joinInfoFields shipperInfoFields r

/-- The surcharge fields scanned by `detect_residential_surcharges`. -/
def residentialSurchargeFields : List String :=
  [ "Surcharge_Details", "Service Description", "Service Type",
    "Charge Description", "Charge Type", "Net Charge Title",
    "Accessorial Charge", "Surcharge Description", "Surcharge Type",
    "Residential Surcharge", "Delivery Area Surcharge", "Additional Charges" ]

/-- Whether some scanned field of the row matches a residential pattern
(case-insensitive substring, first match short-circuits as in the source). -/
def rowMatchesResidential (r : Row) : Bool :=
  residentialSurchargeFields.any (fun f =>
    match rowGetCell r f with
    | some (some v) =>
        residentialPatterns.any (fun p => strContains (pyLower (valueStr v)) (pyLower p))
    | _ => false)

/-- The per-row `has_residential_surcharge` flag set by
`detect_residential_surcharges`: a residential pattern matched and NOT both
sides carry business indicators. -/
def hasResidentialSurchargeFlag (r : Row) : Bool :=
  if rowMatchesResidential r then
    let destInfo := pyUpper (fullDestinationInfo r)
    let shipInfo := pyUpper (fullShipperInfo r)
    !(hasBusinessIndicators destInfo && hasBusinessIndicators shipInfo)
  else false

/-- The split performed by `run_full_audit` (lines 385-390): residential
review pool and main-audit pool. -/
def splitResidential (df : List Row) : List Row × List Row :=
  (df.filter hasResidentialSurchargeFlag, df.filter (fun r => !hasResidentialSurchargeFlag r))

/-! ## Findings -/

/-- The finding record produced by the detectors.  `trackingNumber`,
`carrier` and `serviceType` carry raw cell values (`none` = NaN) exactly as
the Python dicts do. -/
structure Finding where
  errorType : String
  trackingNumber : Option Value
  date : String
  carrier : Option Value
  serviceType : Option Value
  disputeReason : String
  refundEstimate : ℚ
  notes : String
deriving DecidableEq, Repr

/-! ## Late-delivery detector (`check_late_deliveries`) -/

def fedexGuaranteedServiceCodes : List String :=
  ["PO", "FO", "SO", "ES", "OA", "LO", "IP"]

/-- `service_delivery_times` (business days); guaranteed services only. -/
def serviceDeliveryTimes : List (String × ℕ) :=
  [ ("FEDEX_2DAY", 2), ("FEDEX_STANDARD_OVERNIGHT", 1),
    ("FEDEX_PRIORITY_OVERNIGHT", 1), ("FEDEX_INTERNATIONAL_PRIORITY", 1),
    ("INTERNATIONAL_PRIORITY", 1), ("FEDEX_FIRST_OVERNIGHT", 1),
    ("FEDEX_INTL_PRIORITY_EXPRESS", 1),
    ("UPS_NEXT_DAY_AIR", 1), ("UPS_NEXT_DAY_AIR_SAVER", 1),
    ("UPS_2ND_DAY_AIR", 2) ]

def lookupAssoc (l : List (String × ℕ)) (k : String) : Option ℕ :=
  (l.find? (fun p => p.1 = k)).map Prod.snd

/-- `str(row.get(c, dflt))` for a string default: absent column gives the
default, NaN prints as `nan`. -/
def rowStrGet (r : Row) (c : String) (dflt : String) : String :=
  match rowGetCell r c with
  | none => dflt
  | some none => "nan"
  | some (some v) => valueStr v

/-- `pd.to_datetime(cell, errors='coerce')` on a raw cell (None and NaN
coerce to NaT; numeric timestamps are not produced by the data and map to
NaT). -/
def toDatetimeCell (cell : Option (Option Value)) : Option ℤ :=
  match cell with
  | some (some (.vStr s)) => parseDate s
  | _ => none

/-- `float(row.get(c, 0) or 0)`: absent column gives 0, empty string gives
0, otherwise `float`.  `none` models the Python exception on an
unparseable value (the caller skips the row) and, at day granularity, a
NaN cell (whose NaN would only propagate into the refund; no claim
exercises that path). -/
def chargeFloat (r : Row) (c : String) : Option ℚ :=
  match rowGetCell r c with
  | none => some 0
  | some none => none
  | some (some (.vNum q)) => some q
  | some (some (.vStr s)) => if s = "" then some 0 else pyFloat s

/-- One row of `check_late_deliveries`; `none` when the row is skipped
(non-guaranteed FedEx service, unknown service, missing dates, on-time
delivery, or a per-row exception). -/
def lateRow (r : Row) : Option Finding :=
  let service_desc := strReplace (pyUpper (rowStrGet r "Service Description" "")) " " "_"
  let service_type := strReplace (pyUpper (rowStrGet r "Service Type" "")) " " "_"
  let carrier := pyUpper (rowStrGet r "Carrier" "")
  if strContains carrier "FEDEX" &&
      !(fedexGuaranteedServiceCodes.contains (pyUpper (pyStrip (rowStrGet r "Service Type" "")))) then
    none
  else
    match lookupAssoc serviceDeliveryTimes service_desc <|>
        lookupAssoc serviceDeliveryTimes (carrier ++ "_" ++ service_type) with
    | none => none
    | some expected_days =>
        match toDatetimeCell (rowGetCell r "Shipment Date") <|>
            toDatetimeCell (rowGetCell r "Shipment Date (mm/dd/yyyy)"),
          toDatetimeCell (rowGetCell r "Delivery Date") <|>
            toDatetimeCell (rowGetCell r "Shipment Delivery Date (mm/dd/yyyy)") with
        | some ship_date, some delivery_date =>
            let expected_delivery := addBusinessDays ship_date expected_days
            if expected_delivery < delivery_date then
              let days_late := delivery_date - expected_delivery
              match chargeFloat r "Total Charges", chargeFloat r "Base Rate",
                  chargeFloat r "Billed Amount" with
              | some total_charges, some base_rate, some billed_amount =>
                  let refund_estimate :=
                    if total_charges ≠ 0 then total_charges
                    else if base_rate ≠ 0 then base_rate else billed_amount
                  some { errorType := "Late Delivery",
                         trackingNumber := rowGetD r "Tracking Number" (some (.vStr "")),
                         date := renderDate ship_date,
                         carrier := rowGetD r "Carrier" (some (.vStr "")),
                         serviceType := rowGetD r "Service Type" (some (.vStr "")),
                         disputeReason := "Package delivered " ++ toString days_late ++ " day(s) late",
                         refundEstimate := refund_estimate,
                         notes := "Expected: " ++ renderDate expected_delivery ++
                           ", Actual: " ++ renderDate delivery_date }
              | _, _, _ => none
            else none
        | _, _ => none

def check_late_deliveries (df : List Row) : List Finding := df.filterMap lateRow

/-! ## Duplicate-tracking detector (`check_duplicate_tracking`) -/

def freightCands : List String := ["Freight Charges", "Base Rate", "Freight", "Transportation Charge"]
def miscChargeCands : List String := ["Surcharges", "Miscellaneous Charges", "Additional Charges", "Misc"]
def dutyCands : List String := ["Duty and Tax", "Duty & Tax", "Duties", "Taxes", "Customs Charges"]
def discountCands : List String := ["Discount", "Discounts", "Credit"]

def AMT_TOL : ℚ := 1/100

structure DupAmts where
  freight : ℚ
  misc : ℚ
  duty : ℚ
  discount : ℚ
  net : ℚ
deriving DecidableEq, Repr

/-- `float(str(net).replace('$','').replace(',',''))` (no parenthesis
handling here, unlike `_get_float_value`). -/
def netParse (v : Value) : Option ℚ :=
  match v with
  | .vNum q => some q
  | .vStr s => pyFloat (strReplace (strReplace s "$" "") "," "")

/-- The per-row amount block of `check_duplicate_tracking` (lines 574-588),
including the freight:=net fallback used when the frame has neither duty
nor freight columns. -/
def dupRowAmts (hasDutyCols hasFreightCols : Bool) (r : Row) : DupAmts :=
  let freight := getFloatValue r freightCands
  let misc := getFloatValue r miscChargeCands
  let duty := getFloatValue r dutyCands
  let discount := |getFloatValue r discountCands|
  let net :=
    match rowGetD r "Total Charges" (some (.vNum 0)) with
    | none => freight + misc + duty - discount
    | some v =>
        match netParse v with
        | some q => q
        | none => freight + misc + duty - discount
  let freight := if !hasDutyCols && !hasFreightCols &&
      freight = 0 && misc = 0 && duty = 0 && 0 < net then net else freight
  { freight := freight, misc := misc, duty := duty, discount := discount, net := net }

inductive DupClass where
  | TRANSPORT | DUTY_TAX | CREDIT_ADJUST | MISC
deriving DecidableEq, Repr

/-- The `np.select` classification (first true condition wins). -/
def dupRowClass (a : DupAmts) : DupClass :=
  if AMT_TOL < a.freight + a.misc + a.discount ∧ |a.duty| < AMT_TOL then .TRANSPORT
  else if AMT_TOL < |a.duty| ∧ |a.freight| + |a.misc| < AMT_TOL then .DUTY_TAX
  else if a.net < -AMT_TOL then .CREDIT_ADJUST
  else .MISC

def returnKeywords : List String := ["RETURN", "RMGR", "RMA", "REVERSE", "RETURNMANAGER"]

/-- `FreightAuditEngine._is_return_service` applied to a service cell.
Empty strings and NaN are falsy; numeric cells cannot contain a keyword. -/
def isReturnService (cell : Option Value) : Bool :=
  match cell with
  | some (.vStr s) =>
      if s = "" then false
      else returnKeywords.any (fun k => strContains (pyUpper s) k)
  | _ => false

def dupServiceColCands : List String :=
  ["Service Description", "Service Type", "Service", "Svc Desc", "Service Code", "Svc Type", "Svc Code"]

/-- The service column chosen by `_is_original_plus_return_pair` (first
candidate present among the frame columns). -/
def serviceColForDup (df : List Row) : Option String :=
  dupServiceColCands.find? (dfHasCol df)

/-- `FreightAuditEngine._is_original_plus_return_pair`. -/
def isOriginalPlusReturnPair (df : List Row) (rows : List Row) : Bool :=
  match rows with
  | [r1, r2] =>
      match serviceColForDup df with
      | none => false
      | some c =>
          let b1 := isReturnService (rowGetD r1 c none)
          let b2 := isReturnService (rowGetD r2 c none)
          ((if b1 then 1 else 0) + (if b2 then 1 else 0) : ℕ) = 1
  | _ => false

/-- `_key_tracking` of a row. -/
def rowTrackingKey (r : Row) : String := normalizeTracking (rowGetCell r "Tracking Number")

/-- `_carrier` of a row: computed by the source (line 564) but, like
`_group_key` below, never used for grouping. -/
def dupRowCarrierKey (df : List Row) (r : Row) : String :=
  if dfHasCol df "Carrier" then
    match rowGetCell r "Carrier" with
    | some (some v) => pyUpper (valueStr v)
    | _ => "UNKNOWN"
  else "Unknown"

/-- `_group_key = _carrier + '||' + _key_tracking` (line 597): assigned and
then never read — grouping below uses `_key_tracking` alone. -/
def dupRowGroupKey (df : List Row) (r : Row) : String :=
  dupRowCarrierKey df r ++ "||" ++ rowTrackingKey r

def firstSeenDedupGo (seen : List String) : List String → List String
  | [] => []
  | x :: xs =>
      if seen.contains x then firstSeenDedupGo seen xs
      else x :: firstSeenDedupGo (x :: seen) xs

/-- Distinct values in first-appearance order. -/
def firstSeenDedup (l : List String) : List String := firstSeenDedupGo [] l

def insertByCountDesc (counts : String → ℕ) (x : String) : List String → List String
  | [] => [x]
  | y :: ys => if counts y < counts x then x :: y :: ys else y :: insertByCountDesc counts x ys

/-- `value_counts` ordering: by count descending, stable on ties. -/
def sortByCountDesc (counts : String → ℕ) : List String → List String
  | [] => []
  | x :: xs => insertByCountDesc counts x (sortByCountDesc counts xs)

/-- Python `max` over a nonempty list (0 on the empty list, which the
caller never passes). -/
def pyMax : List ℚ → ℚ
  | [] => 0
  | a :: as => as.foldl max a

/-- The per-group body of the duplicate loop (lines 603-640): `none` when
the group is skipped. -/
def dupGroupFinding (df : List Row) (hasDutyCols hasFreightCols : Bool) (k : String) :
    Option Finding :=
  if k = "" then none
  else
    let rows := df.filter (fun r => rowTrackingKey r = k)
    if isOriginalPlusReturnPair df rows then none
    else
      let amts := fun r => dupRowAmts hasDutyCols hasFreightCols r
      let transportRows := rows.filter (fun r => dupRowClass (amts r) = .TRANSPORT)
      let dutyTaxRows := rows.filter (fun r => dupRowClass (amts r) = .DUTY_TAX)
      let numTransport := transportRows.length
      let numDutyTax := dutyTaxRows.length
      if numTransport = 1 ∧ numDutyTax = 1 then none
      else if 1 < numTransport then
        let transportNets := transportRows.map (fun r => (amts r).net)
        let uniqueAmounts := (transportNets.map pyRound2).dedup.length
        let refundReason :=
          if 1 < uniqueAmounts then
            (transportNets.sum - pyMax transportNets,
              "Multiple freight charges (" ++ toString numTransport ++ " lines with different amounts)")
          else
            (transportNets.headD 0 * ((numTransport - 1 : ℕ) : ℚ),
              "Duplicate freight billing (" ++ toString numTransport ++ " identical charges)")
        let freightTotal := transportNets.sum
        let dutyTaxTotal := if 0 < numDutyTax then (dutyTaxRows.map (fun r => (amts r).net)).sum else 0
        let netLanded := freightTotal + dutyTaxTotal
        match rows.head? with
        | none => none
        | some firstRow =>
            some { errorType := "Duplicate Tracking",
                   trackingNumber := rowGetD firstRow "Tracking Number" none,
                   date :=
                     match rowGetCell firstRow "Shipment Date" with
                     | some (some v) =>
                         match (match v with | .vStr s => parseDate s | .vNum _ => none) with
                         | some d => renderDate d
                         | none => ""
                     | _ => "",
                   carrier := rowGetD firstRow "Carrier" (some (.vStr "")),
                   serviceType := rowGetD firstRow "Service Type" (some (.vStr "")),
                   disputeReason := refundReason.2,
                   refundEstimate := refundReason.1,
                   notes := "Transport: " ++ toString numTransport ++ ", Duty/Tax: " ++
                     toString numDutyTax ++ ", Landed: $" ++ formatFixed 2 netLanded }
      else none

/-- `FreightAuditEngine.check_duplicate_tracking`.  Grouping is by the
normalized tracking key alone (the carrier-qualified `_group_key` above is
dead code in the source); groups are visited in `value_counts` order. -/
def check_duplicate_tracking (df : List Row) : List Finding :=
  if df.isEmpty || !dfHasCol df "Tracking Number" then []
  else
    let hasDutyCols := dutyCands.any (dfHasCol df)
    let hasFreightCols := freightCands.any (dfHasCol df)
    let keys := df.map rowTrackingKey
    let dupKeys := (firstSeenDedup keys).filter (fun k => 1 < keys.count k)
    let ordered := sortByCountDesc (fun k => keys.count k) dupKeys
    ordered.filterMap (dupGroupFinding df hasDutyCols hasFreightCols)

/-! ## Disputable-surcharge classifier (`check_disputable_surcharges`) -/

/-- `\s*\$?\s*` followed by the numeric token, after the `[\s:]` separator
of the `parse_merged` label regex. -/
def parseNumAfterSep (l : List Char) : Option ℚ :=
  let l1 := l.dropWhile isPyWs
  let l2 := match l1 with | '$' :: t => t | _ => l1
  let l3 := l2.dropWhile isPyWs
  (parseAmtToken l3).map Prod.fst

/-- Lazy-group matching for `(.+?)[\s:]\s*\$?\s*(-?\d+(\.\d+)?)` at a fixed
start: the shortest non-empty newline-free label prefix followed by a
whitespace-or-colon separator and an amount.  `g1rev` is the label read so
far, reversed. -/
def scanLabelAmt (g1rev : List Char) : List Char → Option (String × ℚ)
  | [] => none
  | c :: cs =>
      if g1rev ≠ [] && (isPyWs c || c = ':') then
        match parseNumAfterSep cs with
        | some q => some (String.mk g1rev.reverse, q)
        | none => if c = Char.ofNat 10 then none else scanLabelAmt (c :: g1rev) cs
      else if c = Char.ofNat 10 then none
      else scanLabelAmt (c :: g1rev) cs

/-- `re.search` for the label regex: earliest start wins, then the lazy
shortest label. -/
def searchLabelAmt : List Char → Option (String × ℚ)
  | [] => none
  | c :: t =>
      match scanLabelAmt [] (c :: t) with
      | some res => some res
      | none => searchLabelAmt t

/-- The anchored fallback `^\s*[:;]?\s*\$?\s*(-?\d+(?:\.\d+)?)\s*$` for an
amount with no label at all. -/
def matchBareAmt (l : List Char) : Option ℚ :=
  let l1 := l.dropWhile isPyWs
  let l2 := match l1 with | ':' :: t => t | ';' :: t => t | _ => l1
  let l3 := l2.dropWhile isPyWs
  let l4 := match l3 with | '$' :: t => t | _ => l3
  let l5 := l4.dropWhile isPyWs
  match parseAmtToken l5 with
  | some (q, rest) => if rest.dropWhile isPyWs = [] then some q else none
  | none => none

def blankLabelForms : List String := [":", "-", "."]

/-- One `|;,`-delimited part of the merged surcharge text. -/
def parsePart (p : String) : Option (String × ℚ) :=
  match searchLabelAmt p.data with
  | some (lbl, amt) =>
      let labelText := pyStrip lbl
      let desc :=
        if labelText = "" || blankLabelForms.contains labelText then "BLANK DESCRIPTION CHARGE"
        else canonize labelText
      if amt ≠ 0 then some (desc, amt) else none
  | none =>
      match matchBareAmt p.data with
      | some amt => if amt ≠ 0 then some ("BLANK DESCRIPTION CHARGE", amt) else none
      | none => none

/-- `re.split(r'\s*[|;,]\s*', raw)` followed by the per-part strip the
parser performs anyway: splitting at the separator characters and stripping
each part yields the same parts the Python pipeline matches on. -/
def splitSeps (s : String) : List String :=
  (strSplit (fun c => c = '|' || c = ';' || c = ',') s).map pyStrip

/-- `parse_merged` of `check_disputable_surcharges` applied to the raw
`Surcharge_Details` cell.  Falsy values (empty string, numeric 0) and the
string `nan` (which is what a NaN cell prints as) give no entries. -/
def parse_merged (text : Option Value) : List (String × ℚ) :=
  match text with
  | none => []
  | some (.vNum q) => if q = 0 then [] else parseMergedStr (valueStr (.vNum q))
  | some (.vStr s) => if s = "" then [] else parseMergedStr s
where
  parseMergedStr (raw : String) : List (String × ℚ) :=
    if pyLower (pyStrip raw) = "nan" then []
    else (splitSeps raw).filterMap (fun p => if p = "" then none else parsePart p)

/-- The discrete surcharge columns scanned in addition to the merged text. -/
def surchargeColumns : List String :=
  [ "Address Correction", "Residential Surcharge",
    "Saturday Delivery", "Saturday Pickup", "Sunday Delivery", "Return Fee", "Redirect Fee",
    "Hold at Location", "Additional Handling", "Oversize Charge", "Overweight Charge", "Peak Surcharge",
    "Peak Additional Handling", "Peak Oversize", "Peak Residential", "Fuel Surcharge", "Declared Value Charge",
    "Brokerage Fee", "Duty and Tax", "Entry Preparation", "Clearance Entry", "Missing Documentation",
    "Attempted Delivery", "Undeliverable", "Weight Correction", "DIM Weight Adjustment", "Unauthorized Package" ]

/-- `float(row.get(col, 0) or 0)` for one discrete surcharge column, with
the per-column `try` that skips parse failures.  (A NaN cell would feed a
float NaN through `amt != 0` in Python; NaN amounts are outside the `Rat`
model and no claim exercises them, so NaN skips the column here.) -/
def indivSurcharges (r : Row) : List (String × ℚ) :=
  surchargeColumns.filterMap (fun col =>
    match rowGetCell r col with
    | none => none
    | some none => none
    | some (some (.vNum q)) => if q ≠ 0 then some (canonize col, q) else none
    | some (some (.vStr s)) =>
        if s = "" then none
        else
          match pyFloat s with
          | some q => if q ≠ 0 then some (canonize col, q) else none
          | none => none)

def dayNames : List String :=
  ["Monday", "Tuesday", "Wednesday", "Thursday", "Friday", "Saturday", "Sunday"]

/-- `strftime('%A')`. -/
def dayName (z : ℤ) : String := dayNames.getD (weekday z).toNat ""

def intlKeywords : List String := ["INTERNATIONAL", "INTL", "GLOBAL", "WORLD", "EXPORT", "IMPORT"]

def intlServiceCodes : List String := ["OA", "LO", "IP", "IE", "IF", "IG", "SG", "F1", "FO", "IX", "XS"]

/-- The international-service test used by the customs and fuel branches. -/
def isInternationalService (su : String) : Bool :=
  intlKeywords.any (fun k => strContains su k) ||
    intlServiceCodes.any (fun code =>
      strStartsWith su code || strContains su (" " ++ code) || code = su)

/-- `tracking` cell is falsy (`if not tracking: continue`): empty string or
numeric zero.  NaN is truthy in Python. -/
def isFalsyCell : Option Value → Bool
  | some (.vStr s) => s = ""
  | some (.vNum q) => q = 0
  | none => false

def addToTotals (acc : List (Option Value × ℚ)) (k : Option Value) (v : ℚ) :
    List (Option Value × ℚ) :=
  match acc with
  | [] => [(k, v)]
  | (k0, v0) :: rest => if k0 = k then (k0, v0 + v) :: rest else (k0, v0) :: addToTotals rest k v

/-- `tracking_total_net_charge`: summed net charge per raw tracking value
(lines 876-884). -/
def trackingTotals (df : List Row) : List (Option Value × ℚ) :=
  df.foldl (fun acc r =>
    let tracking := rowGetD r "Tracking Number" (some (.vStr ""))
    if isFalsyCell tracking then acc
    else addToTotals acc tracking
      (getFloatValue r ["Net Charge Amount USD", "Net Charge", "Total Charges"])) []

def lookupTotals (totals : List (Option Value × ℚ)) (k : Option Value) : Option ℚ :=
  (totals.find? (fun p => p.1 = k)).map Prod.snd

/-- The category dispatch of `check_disputable_surcharges` (lines 940-1093)
for one canonical surcharge `(desc, amount)`.  Result: `some (dispute
reason, refund estimate, notes)` when the surcharge is flagged. -/
def evalSurcharge (r : Row) (totals : List (Option Value × ℚ)) (blankDescCount : ℕ)
    (shipDate deliveryDate : Option ℤ) (serviceType : String)
    (longest second third girth : ℚ) (actualWt billedWt : ℚ) (dimWt : ℤ)
    (desc : String) (amount : ℚ) : Option (String × ℚ × String) :=
  if desc = "BLANK DESCRIPTION CHARGE" then
    if blankDescCount = 1 then
      some ("Charge with no description - FedEx must provide reason for all charges",
        amount, "Blank/missing surcharge description")
    else none
  else if desc = "ADDRESS CORRECTION" then
    some ("Address correction fee - verify original label; often disputable", amount * (8/10), "")
  else if desc = "RESIDENTIAL SURCHARGE" then
    let destInfo := pyUpper (fullDestinationInfo r)
    let shipInfo := pyUpper (fullShipperInfo r)
    let isRecipientBusiness := hasBusinessIndicators destInfo
    let isShipperBusiness := hasBusinessIndicators shipInfo
    if isRecipientBusiness then
      some ("Residential surcharge applied to business address", amount,
        if isShipperBusiness then "Both recipient and shipper have business indicators (B2B)"
        else "Recipient address has business indicators")
    else none
  else if desc = "SATURDAY DELIVERY" ∨ desc = "SATURDAY PICKUP" ∨ desc = "SUNDAY/WEEKEND CHARGE" then
    match deliveryDate with
    | some d =>
        if weekday d < 5 then
          some ("Weekend surcharge but delivery/pickup occurred on weekday", amount,
            "Date: " ++ dayName d)
        else none
    | none => none
  else if desc = "RETURN FEE" ∨ desc = "REDIRECT DELIVERY FEE" ∨ desc = "HOLD AT LOCATION FEE" then
    some (desc ++ " - verify customer/carrier request vs. error", amount * (6/10), "")
  else if desc = "BILLING ERROR FEE" then
    some ("Billing error should not be passed to customer", amount, "")
  else if desc = "ADDITIONAL HANDLING SURCHARGE" then
    let needsHandling := 48 < longest ∨ 30 < second ∨ 105 < longest + girth ∨ 50 ≤ actualWt
    if ¬needsHandling ∧ 0 < longest then
      some ("Additional Handling charged but size/weight thresholds not met", amount,
        "Dims " ++ formatFixed 1 longest ++ "x" ++ formatFixed 1 second ++ "x" ++
          formatFixed 1 third ++ "\", Wt " ++ formatFixed 1 actualWt ++ " lb")
    else none
  else if desc = "OVERSIZE CHARGE" then
    let lengthPlusGirth := longest + girth
    let isOversize := 96 < longest ∨ 130 < lengthPlusGirth
    if ¬isOversize ∧ 0 < longest then
      some ("Oversize charge applied but thresholds not met", amount,
        "L=" ++ formatFixed 1 longest ++ "\", L+G=" ++ formatFixed 1 lengthPlusGirth ++
          "\" (thresholds: >96\" OR >130\")")
    else none
  else if desc = "UNAUTHORIZED PACKAGE CHARGE" then
    some ("Unauthorized package charge — verify proper authorization/labels", amount * (8/10), "")
  else if desc = "PEAK ADDITIONAL HANDLING" ∨ desc = "PEAK OVERSIZE" ∨
      desc = "PEAK RESIDENTIAL" ∨ desc = "PEAK SURCHARGE" then
    match shipDate with
    | some d =>
        if monthOf d ≠ 11 ∧ monthOf d ≠ 12 ∧ monthOf d ≠ 1 then
          some ("Peak surcharge outside typical peak season (Nov–Jan)", amount * (7/10), "")
        else if ["OVERNIGHT", "PRIORITY", "EXPRESS"].any (fun p => strContains (pyUpper serviceType) p) then
          some ("Peak surcharge on premium service — review reasonableness", amount * (4/10), "")
        else none
    | none =>
        if ["OVERNIGHT", "PRIORITY", "EXPRESS"].any (fun p => strContains (pyUpper serviceType) p) then
          some ("Peak surcharge on premium service — review reasonableness", amount * (4/10), "")
        else none
  else if desc = "SERVICE FAILURE ADJUSTMENT" then
    some ("Service failure should be refunded, not charged", amount, "")
  else if desc = "WEIGHT CORRECTION" ∨ desc = "DIM WEIGHT ADJUSTMENT" ∨ desc = "OVERWEIGHT CHARGE" then
    let step1 : Option (String × ℚ × String) :=
      if 0 < dimWt ∧ 0 < billedWt then
        let correctBillable := max (pyRoundInt actualWt) dimWt
        let over := billedWt - (correctBillable : ℚ)
        if 1 < over then
          some ("Billed weight appears " ++ formatFixed 0 over ++ " lb over correct billable",
            amount * (8/10),
            "Actual " ++ formatFixed 1 actualWt ++ ", DIM " ++ toString dimWt ++
              " (ceil), Billed " ++ formatFixed 0 billedWt)
        else none
      else none
    if desc = "OVERWEIGHT CHARGE" ∧ 0 < actualWt ∧ actualWt < 150 then
      some ("Overweight charge but actual weight " ++ formatFixed 1 actualWt ++
          " lb (<150 lb threshold)", amount,
        match step1 with | some t => t.2.2 | none => "")
    else step1
  else if desc = "CUSTOMS/BROKERAGE FEE" then
    if ¬isInternationalService (pyUpper serviceType) then
      some ("Customs/brokerage fee — verify necessity and accuracy", amount * (1/2), "")
    else none
  else if desc = "FAILED PICKUP/DELIVERY FEE" then
    some ("Failed delivery/pickup — verify carrier attempts & contact info", amount * (7/10), "")
  else if desc = "FUEL SURCHARGE" then
    let tracking := rowGetD r "Tracking Number" (some (.vStr ""))
    let netCharge0 :=
      if isInternationalService (pyUpper serviceType) then
        match lookupTotals totals tracking with
        | some t => t
        | none => getFloatValue r ["Net Charge Amount USD", "Net Charge", "Total Charges"]
      else getFloatValue r ["Net Charge Amount USD", "Net Charge", "Total Charges"]
    let netCharge :=
      if netCharge0 = 0 then
        match chargeFloat r "Base Rate" with
        | some q => q
        | none => 0
      else netCharge0
    if 0 < netCharge then
      let pct := amount / netCharge * 100
      if 30 < pct then
        some ("Fuel surcharge unusually high (" ++ formatFixed 1 pct ++ "% of net charge)",
          amount * (3/10),
          "FSC $" ++ formatFixed 2 amount ++ " / Net Charge $" ++ formatFixed 2 netCharge)
      else none
    else none
  else if desc = "DECLARED VALUE CHARGE" then
    let dv := match chargeFloat r "Declared Value" with | some q => q | none => 0
    if dv < 100 then
      some ("Declared value charge on low-value package ($" ++ formatFixed 2 dv ++ ")", amount, "")
    else none
  else if desc = "MISSING DOCUMENTATION FEE" then
    some ("Missing documentation fee — verify paperwork actually missing", amount * (7/10), "")
  else none

def dedupFirstGo {α : Type} [DecidableEq α] (seen : List α) : List α → List α
  | [] => []
  | x :: xs =>
      if seen.contains x then dedupFirstGo seen xs
      else x :: dedupFirstGo (x :: seen) xs

/-- Distinct values in first-appearance order (Python dict/Counter order). -/
def dedupFirst {α : Type} [DecidableEq α] (l : List α) : List α := dedupFirstGo [] l

/-- `sorted([L, W, H], reverse=True)`. -/
def sortDesc3 (a b c : ℚ) : ℚ × ℚ × ℚ :=
  if b ≤ a then
    if c ≤ b then (a, b, c)
    else if c ≤ a then (a, c, b)
    else (c, a, b)
  else
    if c ≤ a then (b, a, c)
    else if c ≤ b then (b, c, a)
    else (c, b, a)

/-- The per-row body of `check_disputable_surcharges` (lines 886-1133):
individual category findings in surcharge order, then per-label
duplicate-surcharge findings in first-appearance order. -/
def check_disputable_row (totals : List (Option Value × ℚ)) (r : Row) : List Finding :=
  let service_type :=
    match getFirst r ["Service Type", "Service Description"] with
    | some (.vNum 0) => ""
    | some v => valueStr v
    | none => ""
  if strContains (pyUpper service_type) "RMGR" then []
  else
    let tracking := rowGetD r "Tracking Number" (some (.vStr ""))
    let ship_date := toDatetimeCell (rowGetCell r "Shipment Date")
    let carrier := pyUpper (rowStrGet r "Carrier" "")
    let L := getDimensionFrom r lengthCands
    let W := getDimensionFrom r widthCands
    let H := getDimensionFrom r heightCands
    let dims := sortDesc3 L W H
    let longest := dims.1
    let second := dims.2.1
    let third := dims.2.2
    let actual_wt := getFloatValue r ["Actual Weight", "Original Weight", "Shipment Actual Weight", "Package Weight", "Weight"]
    let billed_wt := getFloatValue r ["Billed Weight", "Shipment Rated Weight", "Rated Weight", "Billable Weight", "Chargeable Weight"]
    let dim_divisor : ℚ :=
      if strContains (pyUpper service_type) "INTERNATIONAL" || strContains (pyUpper service_type) "INTL"
      then 166 else 139
    let dim_wt : ℤ := if 0 < L ∧ 0 < W ∧ 0 < H then ratCeil ((L * W * H) / dim_divisor) else 0
    let girth := 2 * (second + third)
    let merged := parse_merged (rowGetD r "Surcharge_Details" (some (.vStr "")))
    let indiv := indivSurcharges r
    let surcharges := merged ++ indiv
    if surcharges.isEmpty then []
    else
      let delivery_date := getDate r ["Actual Delivery Date", "Shipment Delivery Date (mm/dd/yyyy)", "Delivery Date"]
      let blank_desc_count := (surcharges.filter (fun p => p.1 = "BLANK DESCRIPTION CHARGE")).length
      let individual := surcharges.filterMap (fun p =>
        (evalSurcharge r totals blank_desc_count ship_date delivery_date service_type
            longest second third girth actual_wt billed_wt dim_wt p.1 p.2).map
          (fun res =>
            { errorType := "Disputable Surcharge",
              trackingNumber := tracking,
              date := match ship_date with | some d => renderDate d | none => "",
              carrier := some (.vStr carrier),
              serviceType := some (.vStr service_type),
              disputeReason := res.1,
              refundEstimate := res.2.1,
              notes := p.1 ++ " $" ++ formatFixed 2 p.2 ++
                (if res.2.2 ≠ "" then " | " ++ res.2.2 else "") }))
      let descList := surcharges.map Prod.fst
      let dupFindings := (dedupFirst descList).filterMap (fun desc =>
        let cnt := descList.count desc
        if 1 < cnt then
          let totalAmt := ((surcharges.filter (fun p => p.1 = desc)).map Prod.snd).sum
          let rrn :=
            if desc = "BLANK DESCRIPTION CHARGE" then
              (totalAmt,
                "Multiple charges (" ++ toString cnt ++ "x) with blank descriptions - FedEx must provide reason for all charges",
                "Blank description charges billed " ++ toString cnt ++ "x, total $" ++ formatFixed 2 totalAmt)
            else
              (totalAmt * ((cnt - 1 : ℕ) : ℚ) / (cnt : ℚ),
                "Duplicate surcharge appears " ++ toString cnt ++ " times",
                desc ++ " billed " ++ toString cnt ++ "x, total $" ++ formatFixed 2 totalAmt)
          some { errorType := "Disputable Surcharge",
                 trackingNumber := rowGetD r "Tracking Number" (some (.vStr "")),
                 date := match ship_date with | some d => renderDate d | none => "",
                 carrier := some (.vStr carrier),
                 serviceType := some (.vStr service_type),
                 disputeReason := rrn.2.1,
                 refundEstimate := rrn.1,
                 notes := rrn.2.2 }
        else none)
      individual ++ dupFindings

/-- The whole-dataset consolidation of duplicate-surcharge findings by
tracking number (lines 1138-1174), followed by
`other_findings + consolidated`. -/
def consolidateDupSurcharges (findings : List Finding) : List Finding :=
  let dupF := findings.filter (fun f => strStartsWith f.disputeReason "Duplicate surcharge")
  let otherF := findings.filter (fun f => !strStartsWith f.disputeReason "Duplicate surcharge")
  let trackKeys := dedupFirst (dupF.map (fun f => f.trackingNumber))
  let consolidated := trackKeys.filterMap (fun t =>
    let grp := dupF.filter (fun f => f.trackingNumber = t)
    match grp with
    | [] => none
    | [g] => some g
    | g0 :: _ =>
        some { errorType := "Disputable Surcharge",
               trackingNumber := t,
               date := g0.date,
               carrier := g0.carrier,
               serviceType := g0.serviceType,
               disputeReason := "Duplicate surcharge appears " ++ toString grp.length ++ " times",
               refundEstimate := (grp.map (fun f => f.refundEstimate)).sum,
               notes := String.intercalate " | " (grp.map (fun f => f.notes)) })
  otherF ++ consolidated

/-- `FreightAuditEngine.check_disputable_surcharges`. -/
def check_disputable_surcharges (df : List Row) : List Finding :=
  consolidateDupSurcharges (df.flatMap (check_disputable_row (trackingTotals df)))

/-! ## Filing-window classifier (`filter_by_filing_window`, app.py) -/

/-- Exactly `n` digits (`\d{n}`, no backtracking). -/
def takeExactDigits (n : ℕ) (l : List Char) : Option (List Char × List Char) :=
  let ds := l.take n
  if ds.length = n ∧ ds.all isDigitChar then some (ds, l.drop n) else none

/-- The ISO alternative `\d{4}-\d{2}-\d{2}` of the `Actual:` date token.
The optional time suffix `(?:[T\s][\d:]+(?:[+-]\d{2}:?\d{2}|Z)?)?` never
causes the alternative to fail and is ignored at day granularity (the
late-delivery detector only ever writes date-only tokens). -/
def isoDateAt (l : List Char) : Option String :=
  match takeExactDigits 4 l with
  | some (y, r1) =>
      match r1 with
      | '-' :: r2 =>
          match takeExactDigits 2 r2 with
          | some (m, r3) =>
              match r3 with
              | '-' :: r4 =>
                  match takeExactDigits 2 r4 with
                  | some (d, _) => some (String.mk (y ++ '-' :: m ++ '-' :: d))
                  | none => none
              | _ => none
          | none => none
      | _ => none
  | none => none

/-- `\d{1,2}` with greedy backtracking: two digits first, then one. -/
def digits12 (l : List Char) : List (List Char × List Char) :=
  match l with
  | a :: b :: r =>
      (if isDigitChar a && isDigitChar b then [([a, b], r)] else []) ++
        (if isDigitChar a then [([a], b :: r)] else [])
  | [a] => if isDigitChar a then [([a], [])] else []
  | [] => []

/-- The US alternative `\d{1,2}/\d{1,2}/\d{4}`. -/
def usDateAt (l : List Char) : Option String :=
  (digits12 l).foldl (fun acc md =>
    match acc with
    | some s => some s
    | none =>
        match md.2 with
        | '/' :: r2 =>
            (digits12 r2).foldl (fun acc2 dd =>
              match acc2 with
              | some s => some s
              | none =>
                  match dd.2 with
                  | '/' :: r4 =>
                      match takeExactDigits 4 r4 with
                      | some (y, _) => some (String.mk (md.1 ++ '/' :: dd.1 ++ '/' :: y))
                      | none => none
                  | _ => none) none
        | _ => none) none

/-- The date token of the `extract_actual_date` regex, tried ISO first. -/
def actualDateTokenAt (l : List Char) : Option String :=
  match isoDateAt l with
  | some s => some s
  | none => usDateAt l

/-- Scan for the first position where the whole regex
`Actual:\s*(<date token>)` matches; `some tok` is the captured token. -/
def extractActualGo : List Char → Option String
  | [] => none
  | c :: t =>
      if List.isPrefixOf "Actual:".data (c :: t) then
        match actualDateTokenAt (((c :: t).drop 7).dropWhile isPyWs) with
        | some tok => some tok
        | none => extractActualGo t
      else extractActualGo t

/-- `extract_actual_date` of `filter_by_filing_window`: the date extracted
from the first full regex match in the notes (`none` both when no match
exists and when the matched token coerces to NaT). -/
def extractActualDate (notes : String) : Option ℤ :=
  match extractActualGo notes.data with
  | some tok => parseDate tok
  | none => none

/-- The per-finding status assignment of `filter_by_filing_window`.

The masks of the vectorized source are disjoint by construction (each later
mask requires `_status == 'pending'`), so per finding they reduce to this
chain.  A findings frame has no `Shipment Date` / `Invoice Date` columns,
so `_shipment_date` and `_invoice_date` are NaT and the `fillna(_date)`
reference of every non-late branch is the parsed `Date` field. -/
def classifyFilingStatus (today : ℤ) (f : Finding) : String :=
  let errUpper := pyUpper f.errorType
  let dateRef := parseDate f.date
  if strContains errUpper "LATE DELIVERY" then
    match extractActualDate f.notes with
    | some d => if today - d ≤ 15 then "within_window" else "expired"
    | none => "missing_date"
  else if strContains errUpper "LOST" || strContains errUpper "DAMAGE" then
    match dateRef with
    | some d => if today - d ≤ 60 then "within_window" else "expired"
    | none => "missing_date"
  else if strContains errUpper "DISPUTABLE SURCHARGE" || strContains errUpper "DUPLICATE" then
    match dateRef with
    | some d => if today - d ≤ 180 then "within_window" else "expired"
    | none => "missing_date"
  else
    match dateRef with
    | some d => if today - d ≤ 180 then "within_window" else "expired"
    | none => "missing_date"

/-- `filter_by_filing_window` partition: (within_window, expired,
missing_date). -/
def filter_by_filing_window (today : ℤ) (errs : List Finding) :
    List Finding × List Finding × List Finding :=
  (errs.filter (fun f => classifyFilingStatus today f = "within_window"),
    errs.filter (fun f => classifyFilingStatus today f = "expired"),
    errs.filter (fun f => classifyFilingStatus today f = "missing_date"))

/-! ## Orchestrator (`run_full_audit`) -/

structure MiscStats where
  countMisc : ℕ
  sumMisc : ℚ
  avgMisc : ℚ
deriving DecidableEq, Repr

/-- The outputs of `normalize` + `build_misc_views` (queue, by-category,
by-month, summary). -/
structure MiscOut where
  queue : List Row
  byCategory : List (String × ℕ × ℚ)
  byMonth : List (String × ℚ)
  stats : MiscStats

structure AuditSummary where
  totalCharges : ℚ
  totalSavings : ℚ
  affectedShipments : ℕ
  totalShipments : ℕ
  savingsRate : ℚ
  affectedRate : ℚ
deriving DecidableEq, Repr

/-- `calculate_summary`.  `Total Charges` sums numeric cells (pandas `sum`
skips NaN; the audit data carries this column as numbers). -/
def calculate_summary (df : List Row) (findings : List Finding) : AuditSummary :=
  let totalCharges := (df.map (fun r =>
    match rowGetCell r "Total Charges" with
    | some (some (.vNum q)) => q
    | _ => 0)).sum
  let totalSavings := (findings.map (fun f => f.refundEstimate)).sum
  let affected := (dedupFirst (findings.map (fun f => f.trackingNumber))).length
  let total := df.length
  { totalCharges := totalCharges,
    totalSavings := totalSavings,
    affectedShipments := affected,
    totalShipments := total,
    savingsRate := if 0 < totalCharges then totalSavings / totalCharges * 100 else 0,
    affectedRate := if 0 < total then (affected : ℚ) / (total : ℚ) * 100 else 0 }

/-- The result dict of `run_full_audit` (`audit_date`, a wall-clock string,
is not modelled). -/
structure AuditResult where
  findings : List Finding
  summary : AuditSummary
  residentialShipments : List Row
  mainAuditData : List Row
  totalShipments : ℕ
  residentialCount : ℕ
  mainAuditCount : ℕ
  miscChargesQueue : List Row
  miscChargesSummary : Option MiscStats
  miscChargesByCategory : List (String × ℕ × ℚ)

/-- `run_full_audit`.  The misc detection step (`normalize` followed by
`build_misc_views` on a deep copy of the original frame) is passed as a
fallible function: `.error` models any exception raised inside the step,
which the `try/except` of the source catches, leaving the initial empty
misc outputs (`misc_summary = {}` is the `none` of `miscChargesSummary`).
The three core checks run on the main-audit pool before the `try` block
and are unaffected by its outcome. -/
def run_full_audit (miscStep : List Row → Except String MiscOut) (df : List Row) : AuditResult :=
  let split := splitResidential df
  let residentialDf := split.1
  let mainDf := split.2
  let findings := check_late_deliveries mainDf ++ check_duplicate_tracking mainDf ++
    check_disputable_surcharges mainDf
  let misc :=
    match miscStep df with
    | .ok m => (m.queue, some m.stats, m.byCategory)
    | .error _ => ([], none, [])
  { findings := findings,
    summary := calculate_summary mainDf findings,
    residentialShipments := residentialDf,
    mainAuditData := mainDf,
    totalShipments := df.length,
    residentialCount := residentialDf.length,
    mainAuditCount := mainDf.length,
    miscChargesQueue := misc.1,
    miscChargesSummary := misc.2.1,
    miscChargesByCategory := misc.2.2 }

/-! ## Row constructors used by the claim statements -/

/-- `_normalize_tracking` of a plain string cell. -/
def normTrackStr (t : String) : String :=
  normalizeTracking (some (some (.vStr t)))

/-- A shipment-summary line carrying only a tracking number, a carrier and
a total charge — the minimal shape of a freight line in a frame with
neither freight nor duty columns (so the line's net total is taken as its
freight amount). -/
def mkTransportRow (t c : String) (a : ℚ) : Row :=
  [("Tracking Number", some (.vStr t)), ("Carrier", some (.vStr c)),
   ("Total Charges", some (.vNum a))]

/-- `mkTransportRow` over a (carrier, amount) pair, for groups whose lines
carry per-line carriers. -/
def mkTransportRowP (t : String) (p : String × ℚ) : Row := mkTransportRow t p.1 p.2

/-- A shipment-summary line with a service description, as in an
original-plus-return pair. -/
def mkServiceRow (t svc : String) (a : ℚ) : Row :=
  [("Tracking Number", some (.vStr t)), ("Service Description", some (.vStr svc)),
   ("Total Charges", some (.vNum a))]

/-- A guaranteed-service FedEx line for the late-delivery check: carrier,
service code/description, the two dates as raw strings, and the three
charge columns. -/
def mkLateRow (carr stype sdesc shipS delivS : String) (tc br ba : ℚ) : Row :=
  [("Carrier", some (.vStr carr)), ("Service Type", some (.vStr stype)),
   ("Service Description", some (.vStr sdesc)),
   ("Shipment Date", some (.vStr shipS)), ("Delivery Date", some (.vStr delivS)),
   ("Tracking Number", some (.vStr "794612345675")),
   ("Total Charges", some (.vNum tc)), ("Base Rate", some (.vNum br)),
   ("Billed Amount", some (.vNum ba))]

/-- A line carrying an Additional Handling surcharge with numeric
dimensions and weight. -/
def ahRow (L W H wt amt : ℚ) : Row :=
  [("Tracking Number", some (.vStr "T1")), ("Length", some (.vNum L)),
   ("Width", some (.vNum W)), ("Height", some (.vNum H)),
   ("Actual Weight", some (.vNum wt)), ("Additional Handling", some (.vNum amt))]

/-- An Additional Handling line whose dimension columns hold arbitrary
cells (possibly NaN, blank or malformed). -/
def ahRowDims (lc wc hc : Option Value) (wt amt : ℚ) : Row :=
  [("Tracking Number", some (.vStr "T1")), ("Length", lc), ("Width", wc),
   ("Height", hc), ("Actual Weight", some (.vNum wt)),
   ("Additional Handling", some (.vNum amt))]

/-- An Additional Handling line with no dimension columns at all. -/
def ahRowNoDims (wt amt : ℚ) : Row :=
  [("Tracking Number", some (.vStr "T1")), ("Actual Weight", some (.vNum wt)),
   ("Additional Handling", some (.vNum amt))]

/-- A residential-surcharge record: one matching charge description plus
recipient and shipper names. -/
def mkResidentialRow (chargeDesc recipName shipName : String) : Row :=
  [("Charge Description", some (.vStr chargeDesc)),
   ("Recipient Name", some (.vStr recipName)),
   ("Shipper Name", some (.vStr shipName))]

/-! # Claim theorems -/

/-- C1: surcharge-label canonicalization is first-match-wins over the
ordered pattern list, and the claim's DAS example does canonicalize to the
specific category — but the claimed Peak-before-generic ordering fails:
the generic Additional Handling pattern sits at position 13 of `CANON`
while the Peak pattern sits at position 17, so a label containing
"Peak Additional Handling" canonicalizes to `ADDITIONAL HANDLING
SURCHARGE`, contradicting both the claim and the source's own comment
("Demand/Peak Additional Handling must come BEFORE general Additional
Handling"). -/
theorem C1_canonize_peak_order_bug :
    canonize "Peak Additional Handling" = "ADDITIONAL HANDLING SURCHARGE" ∧
    canonize "Peak Additional Handling" ≠ "PEAK ADDITIONAL HANDLING" ∧
    canonize "DAS Residential Surcharge" = "DAS RESIDENTIAL" := by
  refine ⟨by decide, by decide, by decide⟩

/-- C8: for a Late Delivery finding the filing-window classifier takes its
reference date solely from the `Actual:` token of the Notes field — no
fallback: token absent means `missing_date`, and otherwise the status is
`within_window` exactly when today minus the actual date is at most 15
days and `expired` when it exceeds 15 days (independent of every other
field of the finding). -/
theorem C8_filing_window_late (today : ℤ) (f : Finding)
    (h : strContains (pyUpper f.errorType) "LATE DELIVERY" = true) :
    classifyFilingStatus today f =
      match extractActualDate f.notes with
      | some d => if today - d ≤ 15 then "within_window" else "expired"
      | none => "missing_date" := by
  unfold classifyFilingStatus
  rw [if_pos h]

/-- Witness for C8: "Actual: 2024-01-01" evaluated at today = 2024-02-01
(31 days) is expired, and at today = 2024-01-10 (9 days) is within the
window; a notes field with no token is missing_date. -/
theorem C8_filing_window_late_witness :
    classifyFilingStatus (daysFromCivil 2024 2 1)
        ⟨"Late Delivery", none, "2023-12-25", none, none, "", 10,
          "Expected: 2023-12-29, Actual: 2024-01-01"⟩ = "expired" ∧
    classifyFilingStatus (daysFromCivil 2024 1 10)
        ⟨"Late Delivery", none, "2023-12-25", none, none, "", 10,
          "Expected: 2023-12-29, Actual: 2024-01-01"⟩ = "within_window" ∧
    classifyFilingStatus (daysFromCivil 2024 1 10)
        ⟨"Late Delivery", none, "2023-12-25", none, none, "", 10,
          "no token in these notes"⟩ = "missing_date" := by
  refine ⟨?_, ?_, ?_⟩
  · rw [C8_filing_window_late _ _ (by decide)]; decide
  · rw [C8_filing_window_late _ _ (by decide)]; decide
  · rw [C8_filing_window_late _ _ (by decide)]; decide

/-- C9: when the misc non-shipment step fails with any exception, the
orchestrator degrades to empty misc outputs while the three core checks
and the summary are produced exactly as they would be with any other misc
step — the failure is fully isolated. -/
theorem C9_misc_failure_isolated (df : List Row)
    (miscStep : List Row → Except String MiscOut) (e : String)
    (h : miscStep df = .error e) :
    (run_full_audit miscStep df).miscChargesQueue = [] ∧
    (run_full_audit miscStep df).miscChargesSummary = none ∧
    (run_full_audit miscStep df).miscChargesByCategory = [] ∧
    (run_full_audit miscStep df).findings =
      check_late_deliveries (splitResidential df).2 ++
        check_duplicate_tracking (splitResidential df).2 ++
        check_disputable_surcharges (splitResidential df).2 ∧
    (run_full_audit miscStep df).summary =
      calculate_summary (splitResidential df).2
        (check_late_deliveries (splitResidential df).2 ++
          check_duplicate_tracking (splitResidential df).2 ++
          check_disputable_surcharges (splitResidential df).2) ∧
    ∀ miscStep2 : List Row → Except String MiscOut,
      (run_full_audit miscStep df).findings = (run_full_audit miscStep2 df).findings ∧
      (run_full_audit miscStep df).summary = (run_full_audit miscStep2 df).summary := by
  unfold run_full_audit
  rw [h]
  exact ⟨rfl, rfl, rfl, rfl, rfl, fun m2 => ⟨rfl, rfl⟩⟩

/-- Witness for C9 at a concrete frame and a step that raises. -/
theorem C9_misc_failure_isolated_witness :
    (run_full_audit (fun _ => Except.error "normalize blew up")
        [mkTransportRow "TRK1" "FEDEX" 50]).miscChargesQueue = [] ∧
    (run_full_audit (fun _ => Except.error "normalize blew up")
        [mkTransportRow "TRK1" "FEDEX" 50]).miscChargesSummary = none ∧
    (run_full_audit (fun _ => Except.error "normalize blew up")
        [mkTransportRow "TRK1" "FEDEX" 50]).findings = [] := by
  have h := C9_misc_failure_isolated [mkTransportRow "TRK1" "FEDEX" 50]
    (fun _ => Except.error "normalize blew up") "normalize blew up" rfl
  refine ⟨h.1, h.2.1, ?_⟩
  rw [h.2.2.2.1]
  decide

/-- C5: a record whose surcharge/description fields match a residential
pattern is routed to the residential review pool (flag set, excluded from
the main-audit pool) iff at least one of the recipient or shipper side
lacks a business indicator; it stays in the main pool exactly when both
sides show business indicators. -/
theorem C5_residential_routing (df : List Row) (r : Row)
    (hmatch : rowMatchesResidential r = true) (hmem : r ∈ df) :
    (hasResidentialSurchargeFlag r = true ↔
      ¬(hasBusinessIndicators (pyUpper (fullDestinationInfo r)) = true ∧
        hasBusinessIndicators (pyUpper (fullShipperInfo r)) = true)) ∧
    (r ∈ (splitResidential df).1 ↔
      ¬(hasBusinessIndicators (pyUpper (fullDestinationInfo r)) = true ∧
        hasBusinessIndicators (pyUpper (fullShipperInfo r)) = true)) ∧
    (r ∈ (splitResidential df).2 ↔
      (hasBusinessIndicators (pyUpper (fullDestinationInfo r)) = true ∧
        hasBusinessIndicators (pyUpper (fullShipperInfo r)) = true)) := by
  have hflag : hasResidentialSurchargeFlag r = true ↔
      ¬(hasBusinessIndicators (pyUpper (fullDestinationInfo r)) = true ∧
        hasBusinessIndicators (pyUpper (fullShipperInfo r)) = true) := by
    unfold hasResidentialSurchargeFlag
    rw [if_pos hmatch]
    cases hd : hasBusinessIndicators (pyUpper (fullDestinationInfo r)) <;>
      cases hs : hasBusinessIndicators (pyUpper (fullShipperInfo r)) <;> simp [hd, hs]
  refine ⟨hflag, ?_, ?_⟩
  · rw [splitResidential, List.mem_filter]
    constructor
    · intro hin
      exact hflag.mp hin.2
    · intro hb
      exact ⟨hmem, hflag.mpr hb⟩
  · rw [splitResidential, List.mem_filter]
    constructor
    · intro hin
      by_contra hb
      have := hflag.mpr hb
      rw [this] at hin
      simp at hin
    · intro hb
      refine ⟨hmem, ?_⟩
      cases hf : hasResidentialSurchargeFlag r
      · rfl
      · exact absurd (hflag.mp hf) (by simpa using hb)

/-- Witness for C5: a record with a residential surcharge whose recipient
name contains TARGET (business) but whose shipper is a private individual
is routed to the residential review pool and excluded from the main pool. -/
theorem C5_residential_routing_witness :
    mkResidentialRow "Residential Surcharge" "TARGET Store 123" "John Smith" ∈
      (splitResidential [mkResidentialRow "Residential Surcharge" "TARGET Store 123" "John Smith"]).1 ∧
    mkResidentialRow "Residential Surcharge" "TARGET Store 123" "John Smith" ∉
      (splitResidential [mkResidentialRow "Residential Surcharge" "TARGET Store 123" "John Smith"]).2 := by
  have h := C5_residential_routing
    [mkResidentialRow "Residential Surcharge" "TARGET Store 123" "John Smith"]
    (mkResidentialRow "Residential Surcharge" "TARGET Store 123" "John Smith")
    (by decide) (by simp)
  constructor
  · exact h.2.1.mpr (by decide)
  · intro hin
    exact (by decide : ¬(hasBusinessIndicators (pyUpper (fullDestinationInfo
      (mkResidentialRow "Residential Surcharge" "TARGET Store 123" "John Smith"))) = true ∧
      hasBusinessIndicators (pyUpper (fullShipperInfo
      (mkResidentialRow "Residential Surcharge" "TARGET Store 123" "John Smith"))) = true))
      (h.2.2.mp hin)

theorem canonize_additional_handling :
    canonize "Additional Handling" = "ADDITIONAL HANDLING SURCHARGE" := by decide

theorem indivSurcharges_ahRowDims_zero (lc wc hc : Option Value) (wt : ℚ) :
    indivSurcharges (ahRowDims lc wc hc wt 0) = [] := by
  simp [indivSurcharges, surchargeColumns, ahRowDims, rowGetCell]

theorem indivSurcharges_ahRowDims (lc wc hc : Option Value) (wt amt : ℚ) (hamt : amt ≠ 0) :
    indivSurcharges (ahRowDims lc wc hc wt amt) =
      [("ADDITIONAL HANDLING SURCHARGE", amt)] := by
  simp [indivSurcharges, surchargeColumns, ahRowDims, rowGetCell, hamt,
    canonize_additional_handling]

theorem ahRowDims_service (lc wc hc : Option Value) (wt amt : ℚ) :
    getFirst (ahRowDims lc wc hc wt amt) ["Service Type", "Service Description"] = none := rfl

theorem ahRowDims_surdetails (lc wc hc : Option Value) (wt amt : ℚ) :
    rowGetD (ahRowDims lc wc hc wt amt) "Surcharge_Details" (some (.vStr "")) =
      some (.vStr "") := rfl

theorem parse_merged_emptyStr : parse_merged (some (.vStr "")) = [] := rfl

theorem check_disputable_row_ahRowDims (totals : List (Option Value × ℚ))
    (lc wc hc : Option Value) (wt amt : ℚ)
    (hL : getDimensionFrom (ahRowDims lc wc hc wt amt) lengthCands = 0)
    (hW : getDimensionFrom (ahRowDims lc wc hc wt amt) widthCands = 0)
    (hH : getDimensionFrom (ahRowDims lc wc hc wt amt) heightCands = 0) :
    check_disputable_row totals (ahRowDims lc wc hc wt amt) = [] := by
  by_cases hamt : amt = 0
  · subst hamt
    unfold check_disputable_row
    rw [ahRowDims_service, ahRowDims_surdetails, parse_merged_emptyStr,
      indivSurcharges_ahRowDims_zero]
    rfl
  · unfold check_disputable_row
    rw [ahRowDims_service, ahRowDims_surdetails, parse_merged_emptyStr,
      indivSurcharges_ahRowDims lc wc hc wt amt hamt, hL, hW, hH]
    simp [evalSurcharge, sortDesc3, dedupFirst, dedupFirstGo]

/-- C10: an Additional Handling disputable finding requires a positive
parsed dimension: when length, width and height all resolve to 0 (the
dimension cells being NaN, blank or malformed), `check_disputable_surcharges`
never flags the Additional Handling surcharge, whatever the weight and
amount — the vacuously-unmet size thresholds and a sub-50 lb weight do not
suffice. -/
theorem C10_no_dims_never_flagged (lc wc hc : Option Value) (wt amt : ℚ)
    (hL : getDimensionFrom (ahRowDims lc wc hc wt amt) lengthCands = 0)
    (hW : getDimensionFrom (ahRowDims lc wc hc wt amt) widthCands = 0)
    (hH : getDimensionFrom (ahRowDims lc wc hc wt amt) heightCands = 0) :
    check_disputable_surcharges [ahRowDims lc wc hc wt amt] = [] := by
  unfold check_disputable_surcharges
  rw [List.flatMap_singleton, check_disputable_row_ahRowDims _ lc wc hc wt amt hL hW hH]
  rfl

/-- Witness for C10: blank length, NaN width, malformed height, a 10 lb
weight and a 25-dollar Additional Handling charge produce no finding. -/
theorem C10_no_dims_never_flagged_witness :
    check_disputable_surcharges
      [ahRowDims (some (.vStr "")) none (some (.vStr "oops")) 10 25] = [] :=
  C10_no_dims_never_flagged (some (.vStr "")) none (some (.vStr "oops")) 10 25
    (by decide) (by decide) (by decide)

theorem strAppend_ne_empty (s t : String) (h : s ≠ "") : s ++ t ≠ "" := by
  intro he
  apply h
  apply String.ext
  have hd : (s ++ t).data = [] := by rw [he]
  rw [String.data_append] at hd
  rcases List.append_eq_nil.mp hd with ⟨h1, _⟩
  rw [h1]

theorem getDim_ahRow_length (L W H wt amt : ℚ) (h : 0 ≤ L) :
    getDimensionFrom (ahRow L W H wt amt) lengthCands = L := by
  have hform : getDimensionFrom (ahRow L W H wt amt) lengthCands =
      if 0 < L then L else 0 := rfl
  rw [hform]
  rcases lt_or_eq_of_le h with hlt | heq
  · rw [if_pos hlt]
  · rw [if_neg (by rw [← heq]; exact lt_irrefl 0), heq]

theorem getDim_ahRow_width (L W H wt amt : ℚ) (h : 0 ≤ W) :
    getDimensionFrom (ahRow L W H wt amt) widthCands = W := by
  have hform : getDimensionFrom (ahRow L W H wt amt) widthCands =
      if 0 < W then W else 0 := rfl
  rw [hform]
  rcases lt_or_eq_of_le h with hlt | heq
  · rw [if_pos hlt]
  · rw [if_neg (by rw [← heq]; exact lt_irrefl 0), heq]

theorem getDim_ahRow_height (L W H wt amt : ℚ) (h : 0 ≤ H) :
    getDimensionFrom (ahRow L W H wt amt) heightCands = H := by
  have hform : getDimensionFrom (ahRow L W H wt amt) heightCands =
      if 0 < H then H else 0 := rfl
  rw [hform]
  rcases lt_or_eq_of_le h with hlt | heq
  · rw [if_pos hlt]
  · rw [if_neg (by rw [← heq]; exact lt_irrefl 0), heq]

theorem ahRow_service (L W H wt amt : ℚ) :
    getFirst (ahRow L W H wt amt) ["Service Type", "Service Description"] = none := rfl

theorem ahRow_surdetails (L W H wt amt : ℚ) :
    rowGetD (ahRow L W H wt amt) "Surcharge_Details" (some (.vStr "")) = some (.vStr "") := rfl

theorem indivSurcharges_ahRow (L W H wt amt : ℚ) (hamt : amt ≠ 0) :
    indivSurcharges (ahRow L W H wt amt) = [("ADDITIONAL HANDLING SURCHARGE", amt)] := by
  simp [indivSurcharges, surchargeColumns, ahRow, rowGetCell, hamt,
    canonize_additional_handling]

theorem evalSurcharge_AH (r : Row) (totals : List (Option Value × ℚ)) (bc : ℕ)
    (sd dd : Option ℤ) (st : String) (l s t g aw bw : ℚ) (dw : ℤ) (amt : ℚ) :
    evalSurcharge r totals bc sd dd st l s t g aw bw dw
        "ADDITIONAL HANDLING SURCHARGE" amt =
      if ¬(48 < l ∨ 30 < s ∨ 105 < l + g ∨ 50 ≤ aw) ∧ 0 < l then
        some ("Additional Handling charged but size/weight thresholds not met", amt,
          "Dims " ++ formatFixed 1 l ++ "x" ++ formatFixed 1 s ++ "x" ++ formatFixed 1 t ++
            "\", Wt " ++ formatFixed 1 aw ++ " lb")
      else none := rfl

/-- C7 (amended): with non-negative parsed dimensions, an Additional
Handling surcharge is flagged with a 100% refund iff the package meets
none of the handling thresholds AND at least one dimension is positive:
longest ≤ 48, second ≤ 30, longest + girth ≤ 105, weight < 50 and
0 < longest.  (The original claim omitted the positivity guard.) -/
theorem C7_additional_handling_amended (L W H wt amt : ℚ)
    (hL : 0 ≤ L) (hW : 0 ≤ W) (hH : 0 ≤ H) (hamt : amt ≠ 0) :
    check_disputable_surcharges [ahRow L W H wt amt] =
      if (sortDesc3 L W H).1 ≤ 48 ∧ (sortDesc3 L W H).2.1 ≤ 30 ∧
          (sortDesc3 L W H).1 + 2 * ((sortDesc3 L W H).2.1 + (sortDesc3 L W H).2.2) ≤ 105 ∧
          wt < 50 ∧ 0 < (sortDesc3 L W H).1 then
        [{ errorType := "Disputable Surcharge",
           trackingNumber := some (.vStr "T1"),
           date := "",
           carrier := some (.vStr ""),
           serviceType := some (.vStr ""),
           disputeReason := "Additional Handling charged but size/weight thresholds not met",
           refundEstimate := amt,
           notes := "ADDITIONAL HANDLING SURCHARGE" ++ " $" ++ formatFixed 2 amt ++
             (" | " ++ ("Dims " ++ formatFixed 1 (sortDesc3 L W H).1 ++ "x" ++
               formatFixed 1 (sortDesc3 L W H).2.1 ++ "x" ++
               formatFixed 1 (sortDesc3 L W H).2.2 ++ "\", Wt " ++ formatFixed 1 wt ++ " lb")) }]
      else [] := by
  have hiff : (¬(48 < (sortDesc3 L W H).1 ∨ 30 < (sortDesc3 L W H).2.1 ∨
        105 < (sortDesc3 L W H).1 + 2 * ((sortDesc3 L W H).2.1 + (sortDesc3 L W H).2.2) ∨
        50 ≤ wt) ∧ 0 < (sortDesc3 L W H).1) ↔
      ((sortDesc3 L W H).1 ≤ 48 ∧ (sortDesc3 L W H).2.1 ≤ 30 ∧
        (sortDesc3 L W H).1 + 2 * ((sortDesc3 L W H).2.1 + (sortDesc3 L W H).2.2) ≤ 105 ∧
        wt < 50 ∧ 0 < (sortDesc3 L W H).1) := by
    push_neg
    tauto
  unfold check_disputable_surcharges
  rw [List.flatMap_singleton]
  unfold check_disputable_row
  rw [ahRow_service, ahRow_surdetails, parse_merged_emptyStr,
    indivSurcharges_ahRow L W H wt amt hamt,
    getDim_ahRow_length L W H wt amt hL, getDim_ahRow_width L W H wt amt hW,
    getDim_ahRow_height L W H wt amt hH]
  simp only [List.nil_append]
  rw [show getFloatValue (ahRow L W H wt amt)
      ["Actual Weight", "Original Weight", "Shipment Actual Weight", "Package Weight", "Weight"] = wt from rfl]
  simp only [evalSurcharge_AH, List.filterMap, Option.map]
  rw [if_congr hiff rfl rfl]
  by_cases hc : (sortDesc3 L W H).1 ≤ 48 ∧ (sortDesc3 L W H).2.1 ≤ 30 ∧
      (sortDesc3 L W H).1 + 2 * ((sortDesc3 L W H).2.1 + (sortDesc3 L W H).2.2) ≤ 105 ∧
      wt < 50 ∧ 0 < (sortDesc3 L W H).1
  · rw [if_pos hc, if_pos hc]
    have hne : ("Dims " ++ formatFixed 1 (sortDesc3 L W H).1 ++ "x" ++
        formatFixed 1 (sortDesc3 L W H).2.1 ++ "x" ++ formatFixed 1 (sortDesc3 L W H).2.2 ++
        "\", Wt " ++ formatFixed 1 wt ++ " lb") ≠ "" := by
      repeat apply strAppend_ne_empty
      decide
    simp [hne, consolidateDupSurcharges, dedupFirst, dedupFirstGo,
      show strContains (pyUpper "") "RMGR" = false from rfl,
      show rowGetD (ahRow L W H wt amt) "Tracking Number" (some (.vStr "")) =
        some (.vStr "T1") from rfl,
      show toDatetimeCell (rowGetCell (ahRow L W H wt amt) "Shipment Date") = none from rfl,
      show pyUpper (rowStrGet (ahRow L W H wt amt) "Carrier" "") = "" from rfl]
    decide
  · rw [if_neg hc, if_neg hc]
    simp [consolidateDupSurcharges, dedupFirst, dedupFirstGo,
      show strContains (pyUpper "") "RMGR" = false from rfl]

/-- Counterexample to C7 as stated: a record whose dimension columns are
absent (all dimensions resolve to 0) meets none of the handling thresholds
(0 ≤ 48, 0 ≤ 30, 0 + girth ≤ 105, weight 10 < 50), yet
`check_disputable_surcharges` emits no finding for its 25-dollar Additional
Handling surcharge — the claimed "iff" fails without the positive-dimension
guard. -/
theorem C7_counterexample :
    check_disputable_surcharges [ahRowNoDims 10 25] = [] ∧
    ((0 : ℚ) ≤ 48 ∧ (0 : ℚ) ≤ 30 ∧ (0 : ℚ) + 2 * ((0 : ℚ) + 0) ≤ 105 ∧ (10 : ℚ) < 50) := by
  constructor
  · decide
  · norm_num

/-- Witness for the amended C7: the 20×15×10 in, 10 lb package is flagged
(the finding list is the stated singleton) and the 50×20×20 in, 60 lb
package is not flagged. -/
theorem C7_additional_handling_amended_witness :
    check_disputable_surcharges [ahRow 20 15 10 10 25] ≠ [] ∧
    check_disputable_surcharges [ahRow 50 20 20 60 25] = [] := by
  constructor
  · rw [C7_additional_handling_amended 20 15 10 10 25 (by norm_num) (by norm_num)
      (by norm_num) (by norm_num)]
    decide
  · rw [C7_additional_handling_amended 50 20 20 60 25 (by norm_num) (by norm_num)
      (by norm_num) (by norm_num)]
    decide

/-- Counterexample to C6 as stated: a FedEx 2Day shipment shipped Monday
2024-01-01 and delivered Thursday 2024-01-04 produces exactly one finding
with the business-day-advanced expected date (Wednesday 2024-01-03), but
its Notes field records only the two dates — the day-count late appears in
the Dispute Reason field, not in Notes as the claim asserts. -/
theorem C6_counterexample :
    check_late_deliveries
        [mkLateRow "FedEx" "ES" "FedEx 2Day" "2024-01-01" "2024-01-04" 100 80 70] =
      [{ errorType := "Late Delivery",
         trackingNumber := some (.vStr "794612345675"),
         date := "2024-01-01",
         carrier := some (.vStr "FedEx"),
         serviceType := some (.vStr "ES"),
         disputeReason := "Package delivered 1 day(s) late",
         refundEstimate := 100,
         notes := "Expected: 2024-01-03, Actual: 2024-01-04" }] ∧
    strContains "Expected: 2024-01-03, Actual: 2024-01-04" "day(s) late" = false ∧
    strContains "Package delivered 1 day(s) late" "1 day(s) late" = true := by
  refine ⟨by decide, by decide, by decide⟩

theorem weekday_nextBusinessDay (z : ℤ) : weekday (nextBusinessDay z) < 5 := by
  unfold nextBusinessDay weekday
  split_ifs with h1 h2 <;> [exact h1; exact h2; omega]

theorem weekday_addBusinessDays (z : ℤ) (n : ℕ) (h : 1 ≤ n) :
    weekday (addBusinessDays z n) < 5 := by
  induction n generalizing z with
  | zero => omega
  | succ k ih =>
      rw [addBusinessDays]
      rcases Nat.eq_zero_or_pos k with hk | hk
      · rw [hk, addBusinessDays]
        exact weekday_nextBusinessDay z
      · exact ih (nextBusinessDay z) hk

theorem mkLateRow_strGet_desc (carr stype sdesc s1 s2 : String) (tc br ba : ℚ) :
    rowStrGet (mkLateRow carr stype sdesc s1 s2 tc br ba) "Service Description" "" = sdesc := rfl

theorem mkLateRow_strGet_type (carr stype sdesc s1 s2 : String) (tc br ba : ℚ) :
    rowStrGet (mkLateRow carr stype sdesc s1 s2 tc br ba) "Service Type" "" = stype := rfl

theorem mkLateRow_strGet_carrier (carr stype sdesc s1 s2 : String) (tc br ba : ℚ) :
    rowStrGet (mkLateRow carr stype sdesc s1 s2 tc br ba) "Carrier" "" = carr := rfl

theorem mkLateRow_ship (carr stype sdesc s1 s2 : String) (tc br ba : ℚ) :
    toDatetimeCell (rowGetCell (mkLateRow carr stype sdesc s1 s2 tc br ba) "Shipment Date") =
      parseDate s1 := rfl

theorem mkLateRow_deliv (carr stype sdesc s1 s2 : String) (tc br ba : ℚ) :
    toDatetimeCell (rowGetCell (mkLateRow carr stype sdesc s1 s2 tc br ba) "Delivery Date") =
      parseDate s2 := rfl

/-- C6 (amended): for a record with a guaranteed service of N business
days, the expected delivery is the ship date advanced N business days with
Saturdays and Sundays skipped (the result always lands on a weekday);
exactly one Late Delivery finding is emitted iff the actual delivery date
exceeds the expected date, with refund equal to total charges falling back
to base rate and then billed amount when the earlier values are zero, the
Notes recording both dates, and the day-count late recorded in the Dispute
Reason (not in Notes, as the original claim said). -/
theorem C6_late_delivery_amended (carr stype sdesc shipS delivS : String)
    (tc br ba : ℚ) (n : ℕ) (ship deliv : ℤ)
    (hgate : strContains (pyUpper carr) "FEDEX" = true →
      fedexGuaranteedServiceCodes.contains (pyUpper (pyStrip stype)) = true)
    (hdays : lookupAssoc serviceDeliveryTimes (strReplace (pyUpper sdesc) " " "_") = some n)
    (hship : parseDate shipS = some ship)
    (hdeliv : parseDate delivS = some deliv) :
    check_late_deliveries [mkLateRow carr stype sdesc shipS delivS tc br ba] =
      (if addBusinessDays ship n < deliv then
        [{ errorType := "Late Delivery",
           trackingNumber := some (.vStr "794612345675"),
           date := renderDate ship,
           carrier := some (.vStr carr),
           serviceType := some (.vStr stype),
           disputeReason := "Package delivered " ++ toString (deliv - addBusinessDays ship n) ++
             " day(s) late",
           refundEstimate := if tc ≠ 0 then tc else if br ≠ 0 then br else ba,
           notes := "Expected: " ++ renderDate (addBusinessDays ship n) ++ ", Actual: " ++
             renderDate deliv }]
      else []) ∧
    (1 ≤ n → weekday (addBusinessDays ship n) < 5) := by
  constructor
  · unfold check_late_deliveries
    simp only [List.filterMap_cons, List.filterMap_nil]
    unfold lateRow
    simp only [mkLateRow_strGet_desc, mkLateRow_strGet_type, mkLateRow_strGet_carrier,
      mkLateRow_ship, mkLateRow_deliv, hship, hdeliv]
    rw [hdays]
    simp only [Option.some_orElse]
    have hchargeT : chargeFloat (mkLateRow carr stype sdesc shipS delivS tc br ba)
        "Total Charges" = some tc := rfl
    have hchargeB : chargeFloat (mkLateRow carr stype sdesc shipS delivS tc br ba)
        "Base Rate" = some br := rfl
    have hchargeA : chargeFloat (mkLateRow carr stype sdesc shipS delivS tc br ba)
        "Billed Amount" = some ba := rfl
    rw [hchargeT, hchargeB, hchargeA]
    cases hcf : strContains (pyUpper carr) "FEDEX" with
    | false =>
        simp only [hcf, Bool.false_and, Bool.false_eq_true, if_false]
        by_cases hlt : addBusinessDays ship n < deliv
        · rw [if_pos hlt, if_pos hlt]; rfl
        · rw [if_neg hlt, if_neg hlt]
    | true =>
        rw [hgate hcf]
        simp only [hcf, Bool.not_true, Bool.and_false, Bool.false_eq_true, if_false]
        by_cases hlt : addBusinessDays ship n < deliv
        · rw [if_pos hlt, if_pos hlt]; rfl
        · rw [if_neg hlt, if_neg hlt]
  · intro hn
    exact weekday_addBusinessDays ship n hn

/-- Witness for the amended C6: FedEx 2Day (code ES), shipped Monday
2024-01-01, delivered Thursday 2024-01-04; zero Total Charges exercises
the fallback to the 80-dollar base rate, the Notes carry the
business-day-advanced Wednesday date, and the 1-day count sits in the
Dispute Reason. -/
theorem C6_late_delivery_amended_witness :
    check_late_deliveries
        [mkLateRow "FedEx" "ES" "FedEx 2Day" "2024-01-01" "2024-01-04" 0 80 70] =
      [{ errorType := "Late Delivery",
         trackingNumber := some (.vStr "794612345675"),
         date := "2024-01-01",
         carrier := some (.vStr "FedEx"),
         serviceType := some (.vStr "ES"),
         disputeReason := "Package delivered 1 day(s) late",
         refundEstimate := 80,
         notes := "Expected: 2024-01-03, Actual: 2024-01-04" }] ∧
    weekday (daysFromCivil 2024 1 1) = 0 ∧
    weekday (addBusinessDays (daysFromCivil 2024 1 1) 2) = 2 := by
  have h := C6_late_delivery_amended "FedEx" "ES" "FedEx 2Day" "2024-01-01" "2024-01-04"
    0 80 70 2 (daysFromCivil 2024 1 1) (daysFromCivil 2024 1 4)
    (fun _ => by decide) (by decide) (by decide) (by decide)
  refine ⟨?_, by decide, by decide⟩
  rw [h.1]
  decide

/-! ### Helper lemmas for the duplicate-tracking pipeline -/

theorem rowTrackingKey_mkTP (t : String) (p : String × ℚ) :
    rowTrackingKey (mkTransportRowP t p) = normTrackStr t := rfl

theorem dfHasCol_map_false {α : Type} (f : α → Row) (col : String) (l : List α)
    (h : ∀ a, (f a).any (fun q => q.1 = col) = false) :
    dfHasCol (l.map f) col = false := by
  induction l with
  | nil => rfl
  | cons x xs ih =>
      unfold dfHasCol at ih ⊢
      simp only [List.map_cons, List.any_cons, ih, h x, Bool.false_or]

theorem keys_map_mkTP (t : String) (rows : List (String × ℚ)) :
    (rows.map (mkTransportRowP t)).map rowTrackingKey =
      List.replicate rows.length (normTrackStr t) := by
  rw [List.map_map]
  have h : rowTrackingKey ∘ mkTransportRowP t = fun _ => normTrackStr t :=
    funext (fun p => rfl)
  rw [h, List.map_const']

theorem firstSeenDedupGo_replicate_mem (seen : List String) (k : String)
    (h : seen.contains k = true) (n : ℕ) :
    firstSeenDedupGo seen (List.replicate n k) = [] := by
  have hm : k ∈ seen := by simpa using h
  induction n with
  | zero => rfl
  | succ m ih => simp [List.replicate_succ, firstSeenDedupGo, hm, ih]

theorem firstSeenDedup_replicate (k : String) (n : ℕ) (h : 0 < n) :
    firstSeenDedup (List.replicate n k) = [k] := by
  cases n with
  | zero => omega
  | succ m =>
      unfold firstSeenDedup
      rw [List.replicate_succ]
      unfold firstSeenDedupGo
      simp [firstSeenDedupGo_replicate_mem [k] k (by simp) m]

theorem dupRowAmts_mkTP (t : String) (p : String × ℚ) (h : 0 < p.2) :
    dupRowAmts false false (mkTransportRowP t p) =
      ⟨p.2, 0, 0, 0, p.2⟩ := by
  unfold dupRowAmts
  rw [show getFloatValue (mkTransportRowP t p) freightCands = 0 from rfl,
    show getFloatValue (mkTransportRowP t p) miscChargeCands = 0 from rfl,
    show getFloatValue (mkTransportRowP t p) dutyCands = 0 from rfl,
    show getFloatValue (mkTransportRowP t p) discountCands = 0 from rfl,
    show rowGetD (mkTransportRowP t p) "Total Charges" (some (.vNum 0)) =
      some (.vNum p.2) from rfl]
  simp [netParse, h, abs_zero]

theorem dupRowClass_mkTP (t : String) (p : String × ℚ) (h : AMT_TOL < p.2) :
    dupRowClass (dupRowAmts false false (mkTransportRowP t p)) = .TRANSPORT := by
  have h0 : 0 < p.2 := lt_trans (by norm_num [AMT_TOL]) h
  rw [dupRowAmts_mkTP t p h0]
  unfold dupRowClass
  rw [if_pos]
  constructor
  · simpa using h
  · simp [AMT_TOL]

theorem isOrigReturn_mkTP (t : String) (rows : List (String × ℚ)) :
    isOriginalPlusReturnPair (rows.map (mkTransportRowP t))
      (rows.map (mkTransportRowP t)) = false := by
  match rows with
  | [] => rfl
  | [p] => rfl
  | [p, q] => rfl
  | p :: q :: r :: rest => rfl

theorem check_dup_transport_group (t : String) (rows : List (String × ℚ))
    (ht : normTrackStr t ≠ "")
    (h2 : 2 ≤ rows.length)
    (hpos : ∀ p ∈ rows, AMT_TOL < p.2) :
    check_duplicate_tracking (rows.map (mkTransportRowP t)) =
      [{ errorType := "Duplicate Tracking",
         trackingNumber := some (.vStr t),
         date := "",
         carrier := some (.vStr (rows.headD ("", 0)).1),
         serviceType := some (.vStr ""),
         disputeReason :=
           if 1 < ((rows.map Prod.snd).map pyRound2).dedup.length then
             "Multiple freight charges (" ++ toString rows.length ++ " lines with different amounts)"
           else "Duplicate freight billing (" ++ toString rows.length ++ " identical charges)",
         refundEstimate :=
           if 1 < ((rows.map Prod.snd).map pyRound2).dedup.length then
             (rows.map Prod.snd).sum - pyMax (rows.map Prod.snd)
           else (rows.map Prod.snd).headD 0 * ((rows.length - 1 : ℕ) : ℚ),
         notes := "Transport: " ++ toString rows.length ++ ", Duty/Tax: " ++ toString (0 : ℕ) ++
           ", Landed: $" ++ formatFixed 2 ((rows.map Prod.snd).sum + 0) }] := by
  obtain ⟨p0, rest, rfl⟩ : ∃ p0 rest, rows = p0 :: rest := by
    cases rows with
    | nil => simp at h2
    | cons a b => exact ⟨a, b, rfl⟩
  have hlt1 : 1 < (p0 :: rest).length := by
    simpa using h2
  have hfilter : ((p0 :: rest).map (mkTransportRowP t)).filter
      (fun r => rowTrackingKey r = normTrackStr t) = (p0 :: rest).map (mkTransportRowP t) := by
    apply List.filter_eq_self.mpr
    intro r hr
    obtain ⟨p, _, rfl⟩ := List.mem_map.mp hr
    simp [rowTrackingKey_mkTP]
  have htrans : ((p0 :: rest).map (mkTransportRowP t)).filter
      (fun r => dupRowClass (dupRowAmts false false r) = DupClass.TRANSPORT) =
      (p0 :: rest).map (mkTransportRowP t) := by
    apply List.filter_eq_self.mpr
    intro r hr
    obtain ⟨p, hp, rfl⟩ := List.mem_map.mp hr
    simp [dupRowClass_mkTP t p (hpos p hp)]
  have hduty : ((p0 :: rest).map (mkTransportRowP t)).filter
      (fun r => dupRowClass (dupRowAmts false false r) = DupClass.DUTY_TAX) = [] := by
    apply List.filter_eq_nil.mpr
    intro r hr
    obtain ⟨p, hp, rfl⟩ := List.mem_map.mp hr
    simp [dupRowClass_mkTP t p (hpos p hp)]
  have hnets : ((p0 :: rest).map (mkTransportRowP t)).map
      (fun r => (dupRowAmts false false r).net) = (p0 :: rest).map Prod.snd := by
    rw [List.map_map]
    congr 1
  have hgroup : dupGroupFinding ((p0 :: rest).map (mkTransportRowP t)) false false
      (normTrackStr t) =
      some { errorType := "Duplicate Tracking",
             trackingNumber := some (.vStr t),
             date := "",
             carrier := some (.vStr p0.1),
             serviceType := some (.vStr ""),
             disputeReason :=
               if 1 < (((p0 :: rest).map Prod.snd).map pyRound2).dedup.length then
                 "Multiple freight charges (" ++ toString (p0 :: rest).length ++ " lines with different amounts)"
               else "Duplicate freight billing (" ++ toString (p0 :: rest).length ++ " identical charges)",
             refundEstimate :=
               if 1 < (((p0 :: rest).map Prod.snd).map pyRound2).dedup.length then
                 ((p0 :: rest).map Prod.snd).sum - pyMax ((p0 :: rest).map Prod.snd)
               else ((p0 :: rest).map Prod.snd).headD 0 * (((p0 :: rest).length - 1 : ℕ) : ℚ),
             notes := "Transport: " ++ toString (p0 :: rest).length ++ ", Duty/Tax: " ++
               toString (0 : ℕ) ++ ", Landed: $" ++
               formatFixed 2 (((p0 :: rest).map Prod.snd).sum + 0) } := by
    unfold dupGroupFinding
    rw [if_neg ht]
    simp only [hfilter, isOrigReturn_mkTP, Bool.false_eq_true, if_false, htrans, hduty,
      hnets, List.length_nil, List.length_map, List.length_cons, List.head?_cons,
      show rowGetD (mkTransportRowP t p0) "Tracking Number" none = some (Value.vStr t) from rfl,
      show rowGetCell (mkTransportRowP t p0) "Shipment Date" = none from rfl,
      show rowGetD (mkTransportRowP t p0) "Carrier" (some (Value.vStr "")) =
        some (Value.vStr p0.1) from rfl,
      show rowGetD (mkTransportRowP t p0) "Service Type" (some (Value.vStr "")) =
        some (Value.vStr "") from rfl]
    have hc1 : ¬(rest.length + 1 = 1 ∧ (0 : ℕ) = 1) := by omega
    rw [if_neg hc1, if_pos (show 1 < rest.length + 1 by simpa using hlt1)]
    simp [List.map_cons, List.head?_cons, apply_ite Prod.fst, apply_ite Prod.snd,
      show rowGetD (mkTransportRowP t p0) "Tracking Number" none = some (Value.vStr t) from rfl,
      show rowGetCell (mkTransportRowP t p0) "Shipment Date" = none from rfl,
      show rowGetD (mkTransportRowP t p0) "Carrier" (some (Value.vStr "")) =
        some (Value.vStr p0.1) from rfl,
      show rowGetD (mkTransportRowP t p0) "Service Type" (some (Value.vStr "")) =
        some (Value.vStr "") from rfl]
  unfold check_duplicate_tracking
  rw [show (((p0 :: rest).map (mkTransportRowP t)).isEmpty ||
      !dfHasCol ((p0 :: rest).map (mkTransportRowP t)) "Tracking Number") = false from rfl]
  simp only [Bool.false_eq_true, if_false]
  have hdutyc : dutyCands.any (dfHasCol ((p0 :: rest).map (mkTransportRowP t))) = false := by
    rw [show dutyCands = ["Duty and Tax", "Duty & Tax", "Duties", "Taxes", "Customs Charges"] from rfl,
      List.any_cons, List.any_cons, List.any_cons, List.any_cons, List.any_cons, List.any_nil,
      dfHasCol_map_false (mkTransportRowP t) "Duty and Tax" (p0 :: rest) (fun p => rfl),
      dfHasCol_map_false (mkTransportRowP t) "Duty & Tax" (p0 :: rest) (fun p => rfl),
      dfHasCol_map_false (mkTransportRowP t) "Duties" (p0 :: rest) (fun p => rfl),
      dfHasCol_map_false (mkTransportRowP t) "Taxes" (p0 :: rest) (fun p => rfl),
      dfHasCol_map_false (mkTransportRowP t) "Customs Charges" (p0 :: rest) (fun p => rfl)]
    rfl
  have hfreightc : freightCands.any (dfHasCol ((p0 :: rest).map (mkTransportRowP t))) = false := by
    rw [show freightCands = ["Freight Charges", "Base Rate", "Freight", "Transportation Charge"] from rfl,
      List.any_cons, List.any_cons, List.any_cons, List.any_cons, List.any_nil,
      dfHasCol_map_false (mkTransportRowP t) "Freight Charges" (p0 :: rest) (fun p => rfl),
      dfHasCol_map_false (mkTransportRowP t) "Base Rate" (p0 :: rest) (fun p => rfl),
      dfHasCol_map_false (mkTransportRowP t) "Freight" (p0 :: rest) (fun p => rfl),
      dfHasCol_map_false (mkTransportRowP t) "Transportation Charge" (p0 :: rest) (fun p => rfl)]
    rfl
  rw [hdutyc, hfreightc, keys_map_mkTP t (p0 :: rest),
    firstSeenDedup_replicate (normTrackStr t) (p0 :: rest).length (by simp)]
  have hfilterK : ([normTrackStr t].filter
      (fun k => 1 < (List.replicate (p0 :: rest).length (normTrackStr t)).count k)) =
      [normTrackStr t] := by
    simp only [List.filter, List.count_replicate_self]
    rw [decide_eq_true hlt1]
  rw [hfilterK]
  rw [show sortByCountDesc
      (fun k => (List.replicate (p0 :: rest).length (normTrackStr t)).count k)
      [normTrackStr t] = [normTrackStr t] from rfl]
  rw [List.filterMap_cons, List.filterMap_nil, hgroup]
  rfl

/-- C2 (amended): a duplicate-tracking group of TRANSPORT lines (all net
amounts above the classification tolerance) yields exactly one finding;
the refund is the first line's amount × (count − 1) when all net amounts
are equal after rounding to 2 decimals (the code compares `round(x, 2)`
values), and sum − max when the rounded amounts differ.  The original
claim's "sum − max whenever the amounts differ" fails for amounts that
differ only beyond the second decimal. -/
theorem C2_duplicate_refund_amended (t c : String) (amts : List ℚ)
    (ht : normTrackStr t ≠ "") (h2 : 2 ≤ amts.length)
    (hpos : ∀ a ∈ amts, AMT_TOL < a) :
    check_duplicate_tracking (amts.map (mkTransportRow t c)) =
      [{ errorType := "Duplicate Tracking",
         trackingNumber := some (.vStr t),
         date := "",
         carrier := some (.vStr c),
         serviceType := some (.vStr ""),
         disputeReason :=
           if 1 < (amts.map pyRound2).dedup.length then
             "Multiple freight charges (" ++ toString amts.length ++ " lines with different amounts)"
           else "Duplicate freight billing (" ++ toString amts.length ++ " identical charges)",
         refundEstimate :=
           if 1 < (amts.map pyRound2).dedup.length then amts.sum - pyMax amts
           else amts.headD 0 * ((amts.length - 1 : ℕ) : ℚ),
         notes := "Transport: " ++ toString amts.length ++ ", Duty/Tax: " ++ toString (0 : ℕ) ++
           ", Landed: $" ++ formatFixed 2 (amts.sum + 0) }] := by
  obtain ⟨a0, rest, rfl⟩ : ∃ a0 rest, amts = a0 :: rest := by
    cases amts with
    | nil => simp at h2
    | cons x y => exact ⟨x, y, rfl⟩
  have hmap : (a0 :: rest).map (mkTransportRow t c) =
      ((a0 :: rest).map (fun a => (c, a))).map (mkTransportRowP t) := by
    rw [List.map_map]
    rfl
  have hposP : ∀ p ∈ (a0 :: rest).map (fun a => (c, a)), AMT_TOL < p.2 := by
    intro p hp
    obtain ⟨a, ha, rfl⟩ := List.mem_map.mp hp
    exact hpos a ha
  have h := check_dup_transport_group t ((a0 :: rest).map (fun a => (c, a))) ht
    (by simpa using h2) hposP
  rw [hmap, h]
  have hsnd : (((a0 :: rest).map (fun a => (c, a))).map Prod.snd) = a0 :: rest := by
    rw [List.map_map]
    exact List.map_id' _
  have hhd : (((a0 :: rest).map (fun a => (c, a))).headD ("", 0)) = (c, a0) := rfl
  rw [hsnd, hhd, List.length_map]

/-- Counterexample to C2 as stated: two TRANSPORT lines of 50.002 and
50.001 dollars share a tracking number; the amounts differ, yet the
refund is 50.002 (the first amount, since both round to 50.00 and the code
takes the equal-after-rounding branch) and not sum − max = 50.001. -/
theorem C2_counterexample :
    (check_duplicate_tracking
        [mkTransportRow "TRK50002" "FEDEX" (50002/1000),
         mkTransportRow "TRK50002" "FEDEX" (50001/1000)]).map
      (fun f => f.refundEstimate) = [50002/1000] ∧
    (50002/1000 : ℚ) ≠ 50001/1000 ∧
    (50002/1000 : ℚ) ≠ (50002/1000 + 50001/1000) - max (50002/1000 : ℚ) (50001/1000) := by
  refine ⟨by decide, by decide, by decide⟩

/-- Witness for the amended C2: two 50-dollar lines give one finding with
refund 50; a 50-dollar and a 30-dollar line give one finding with refund
30 = sum − max. -/
theorem C2_duplicate_refund_amended_witness :
    (check_duplicate_tracking
        [mkTransportRow "TRKA" "FEDEX" 50, mkTransportRow "TRKA" "FEDEX" 50]).map
      (fun f => f.refundEstimate) = [50] ∧
    (check_duplicate_tracking
        [mkTransportRow "TRKA" "FEDEX" 50, mkTransportRow "TRKA" "FEDEX" 30]).map
      (fun f => f.refundEstimate) = [30] := by
  constructor
  · rw [show [mkTransportRow "TRKA" "FEDEX" 50, mkTransportRow "TRKA" "FEDEX" 50] =
      [(50 : ℚ), 50].map (mkTransportRow "TRKA" "FEDEX") from rfl]
    rw [C2_duplicate_refund_amended "TRKA" "FEDEX" [50, 50] (by decide) (by decide)
      (by decide)]
    decide
  · rw [show [mkTransportRow "TRKA" "FEDEX" 50, mkTransportRow "TRKA" "FEDEX" 30] =
      [(50 : ℚ), 30].map (mkTransportRow "TRKA" "FEDEX") from rfl]
    rw [C2_duplicate_refund_amended "TRKA" "FEDEX" [50, 30] (by decide) (by decide)
      (by decide)]
    decide

/-- C3 (amended): `check_duplicate_tracking` groups by the normalized
tracking key alone — the carrier-qualified `_group_key` is computed but
never used — so two TRANSPORT lines sharing a tracking number but carrying
different carriers land in the same group and are combined into a single
duplicate-billing finding (reported under the first line's carrier). -/
theorem C3_grouping_ignores_carrier_amended (t c1 c2 : String) (a b : ℚ)
    (ht : normTrackStr t ≠ "") (ha : AMT_TOL < a) (hb : AMT_TOL < b) :
    check_duplicate_tracking [mkTransportRow t c1 a, mkTransportRow t c2 b] =
      [{ errorType := "Duplicate Tracking",
         trackingNumber := some (.vStr t),
         date := "",
         carrier := some (.vStr c1),
         serviceType := some (.vStr ""),
         disputeReason :=
           if 1 < ([pyRound2 a, pyRound2 b]).dedup.length then
             "Multiple freight charges (" ++ toString (2 : ℕ) ++ " lines with different amounts)"
           else "Duplicate freight billing (" ++ toString (2 : ℕ) ++ " identical charges)",
         refundEstimate :=
           if 1 < ([pyRound2 a, pyRound2 b]).dedup.length then [a, b].sum - pyMax [a, b]
           else a * ((1 : ℕ) : ℚ),
         notes := "Transport: " ++ toString (2 : ℕ) ++ ", Duty/Tax: " ++ toString (0 : ℕ) ++
           ", Landed: $" ++ formatFixed 2 ([a, b].sum + 0) }] := by
  have h := check_dup_transport_group t [(c1, a), (c2, b)] ht (by simp)
    (by
      intro p hp
      simp only [List.mem_cons, List.not_mem_nil, or_false] at hp
      rcases hp with rfl | rfl
      · exact ha
      · exact hb)
  exact h

/-- Counterexample to C3 as stated: two 50-dollar lines with the same
tracking number but different carriers (FEDEX and UPS) are combined into
ONE duplicate-billing finding covering both lines (Transport: 2), instead
of being placed in different (carrier, tracking) groups. -/
theorem C3_counterexample :
    check_duplicate_tracking
        [mkTransportRow "TRKX" "FEDEX" 50, mkTransportRow "TRKX" "UPS" 50] =
      [{ errorType := "Duplicate Tracking",
         trackingNumber := some (.vStr "TRKX"),
         date := "",
         carrier := some (.vStr "FEDEX"),
         serviceType := some (.vStr ""),
         disputeReason := "Duplicate freight billing (2 identical charges)",
         refundEstimate := 50,
         notes := "Transport: 2, Duty/Tax: 0, Landed: $100.00" }] := by
  decide

/-- Witness for the amended C3 at concrete carriers and amounts. -/
theorem C3_grouping_ignores_carrier_amended_witness :
    (check_duplicate_tracking
        [mkTransportRow "TRKY" "FEDEX" 50, mkTransportRow "TRKY" "UPS" 30]).length = 1 ∧
    (check_duplicate_tracking
        [mkTransportRow "TRKY" "FEDEX" 50, mkTransportRow "TRKY" "UPS" 30]).map
      (fun f => f.refundEstimate) = [30] := by
  have h := C3_grouping_ignores_carrier_amended "TRKY" "FEDEX" "UPS" 50 30
    (by decide) (by decide) (by decide)
  rw [h]
  refine ⟨rfl, by decide⟩

/-- C4 (confirmed): a two-line group where exactly one of the two service
descriptions is a return service (original-plus-return pair) is skipped by
`check_duplicate_tracking` — no duplicate finding is emitted. -/
theorem C4_original_return_pair_skipped (t s1 s2 : String) (a b : ℚ)
    (ht : normTrackStr t ≠ "")
    (hxor : isReturnService (some (.vStr s1)) ≠ isReturnService (some (.vStr s2))) :
    check_duplicate_tracking [mkServiceRow t s1 a, mkServiceRow t s2 b] = [] := by
  have hfilter : ([mkServiceRow t s1 a, mkServiceRow t s2 b] : List Row).filter
      (fun r => rowTrackingKey r = normTrackStr t) =
      [mkServiceRow t s1 a, mkServiceRow t s2 b] := by
    apply List.filter_eq_self.mpr
    intro r hr
    simp only [List.mem_cons, List.not_mem_nil, or_false] at hr
    rcases hr with rfl | rfl
    · simp [show rowTrackingKey (mkServiceRow t s1 a) = normTrackStr t from rfl]
    · simp [show rowTrackingKey (mkServiceRow t s2 b) = normTrackStr t from rfl]
  have hpair : isOriginalPlusReturnPair [mkServiceRow t s1 a, mkServiceRow t s2 b]
      [mkServiceRow t s1 a, mkServiceRow t s2 b] = true := by
    unfold isOriginalPlusReturnPair
    cases hb1 : isReturnService (some (.vStr s1)) <;>
      cases hb2 : isReturnService (some (.vStr s2))
    · exact absurd (hb1.trans hb2.symm) hxor
    · simp only [show serviceColForDup [mkServiceRow t s1 a, mkServiceRow t s2 b] =
          some "Service Description" from rfl,
        show rowGetD (mkServiceRow t s1 a) "Service Description" none =
          some (Value.vStr s1) from rfl,
        show rowGetD (mkServiceRow t s2 b) "Service Description" none =
          some (Value.vStr s2) from rfl, hb1, hb2]
      simp
    · simp only [show serviceColForDup [mkServiceRow t s1 a, mkServiceRow t s2 b] =
          some "Service Description" from rfl,
        show rowGetD (mkServiceRow t s1 a) "Service Description" none =
          some (Value.vStr s1) from rfl,
        show rowGetD (mkServiceRow t s2 b) "Service Description" none =
          some (Value.vStr s2) from rfl, hb1, hb2]
      simp
    · exact absurd (hb1.trans hb2.symm) hxor
  have hgroupN : dupGroupFinding [mkServiceRow t s1 a, mkServiceRow t s2 b] false false
      (normTrackStr t) = none := by
    unfold dupGroupFinding
    rw [if_neg ht]
    simp only [hfilter, hpair, if_true]
  unfold check_duplicate_tracking
  rw [show (([mkServiceRow t s1 a, mkServiceRow t s2 b] : List Row).isEmpty ||
      !dfHasCol [mkServiceRow t s1 a, mkServiceRow t s2 b] "Tracking Number") = false from rfl]
  simp only [Bool.false_eq_true, if_false]
  rw [show dutyCands.any (dfHasCol [mkServiceRow t s1 a, mkServiceRow t s2 b]) = false from rfl,
    show freightCands.any (dfHasCol [mkServiceRow t s1 a, mkServiceRow t s2 b]) = false from rfl]
  rw [show ([mkServiceRow t s1 a, mkServiceRow t s2 b] : List Row).map rowTrackingKey =
      [normTrackStr t, normTrackStr t] from rfl]
  have hded : firstSeenDedup [normTrackStr t, normTrackStr t] = [normTrackStr t] := by
    simp [firstSeenDedup, firstSeenDedupGo]
  rw [hded]
  have hcount : (1 : ℕ) < ([normTrackStr t, normTrackStr t] : List String).count
      (normTrackStr t) := by
    simp
  have hfilterK : ([normTrackStr t].filter
      (fun k => 1 < ([normTrackStr t, normTrackStr t] : List String).count k)) =
      [normTrackStr t] := by
    simp only [List.filter]
    rw [decide_eq_true hcount]
  rw [hfilterK]
  rw [show sortByCountDesc
      (fun k => ([normTrackStr t, normTrackStr t] : List String).count k)
      [normTrackStr t] = [normTrackStr t] from rfl]
  rw [List.filterMap_cons, List.filterMap_nil, hgroupN]

/-- Witness for C4 at a FedEx international-plus-return pair. -/
theorem C4_original_return_pair_skipped_witness :
    normTrackStr "466761794075" ≠ "" ∧
    isReturnService (some (.vStr "International Ground")) ≠
      isReturnService (some (.vStr "Ground Return Manager")) ∧
    check_duplicate_tracking
      [mkServiceRow "466761794075" "International Ground" 50,
       mkServiceRow "466761794075" "Ground Return Manager" 45] = [] :=
  ⟨by decide, by decide,
    C4_original_return_pair_skipped "466761794075" "International Ground"
      "Ground Return Manager" 50 45 (by decide) (by decide)⟩
